import Mathlib

/-!
Shallow embedding of the e-commerce backend (src/app.js, src/store.js,
src/config.js): in-memory store with carts, checkout, a global order
counter, and an every-Nth-order coupon-issuance policy.

Modelling conventions:
* JavaScript's single mutable `state` becomes an explicit `Store` value
  threaded through every operation; a route handler that can throw
  becomes a function returning `Except ErrCode α × Store` (the thrown
  error propagates, but mutations made before the throw persist, exactly
  as in the source).
* `Math.random()`-based coupon-code seeds, `uuidv4()` order ids and
  `new Date()` timestamps are nondeterministic inputs; they are passed
  to each operation as explicit oracle arguments.
* Prices and money amounts are integers in minor units in the source;
  they are `Nat` here.  The configured `DISCOUNT_RATE` (a JS float,
  default `0.10`) is modelled as the exact rational
  `rateNum / rateDen` (default `1 / 10`), and `Math.round` on a
  non-negative value as exact round-half-up: `⌊x + 1/2⌋`.
* Request quantities arrive as arbitrary JSON numbers; `JsNum` abstracts
  a JS number by the facts `normalizeQty` and `qty || 1` inspect:
  NaN / ±Infinity / integer value / finite non-integer.
* `state.users` (a JS `Map`) is an insertion-ordered association list;
  `Map.set` replaces in place or appends.
-/

structure Product where
  id : String
  name : String
  price : Nat
deriving Repr, DecidableEq

structure CartItem where
  productId : String
  qty : Nat
deriving Repr, DecidableEq

structure Coupon where
  code : String
  createdAt : Nat
  used : Bool
  usedByOrderId : Option String
  usedAt : Option Nat
  createdForOrderNumber : Nat
deriving Repr, DecidableEq

/-- An order record.  The money fields are JS numbers; in this program
the reachable money values are exactly the non-negative integers plus
NaN (a cart line whose productId names an inherited Object.prototype
property makes the subtotal `undefined * qty = NaN`, which then
propagates).  They are modelled as `Option Nat` with `none` = NaN. -/
structure Order where
  id : String
  userId : String
  items : List CartItem
  subtotal : Option Nat
  discountAmount : Option Nat
  total : Option Nat
  couponCode : Option String
  createdAt : Nat
deriving Repr, DecidableEq

structure User where
  cart : List CartItem
  orders : List Order
deriving Repr, DecidableEq

structure Store where
  products : List Product
  users : List (String × User)
  orders : List Order
  coupons : List Coupon
  orderCount : Nat
deriving Repr, DecidableEq

/-- Configuration from config.js: `N` (coupon interval, default 3) and
`DISCOUNT_RATE` as the exact rational `rateNum / rateDen` (default 1/10). -/
structure Config where
  N : Nat
  rateNum : Nat
  rateDen : Nat
deriving Repr, DecidableEq

def defaultConfig : Config := { N := 3, rateNum := 1, rateDen := 10 }

/-- Error codes thrown by the route handlers and the store. -/
inductive ErrCode where
  | PRODUCT_ID_REQUIRED
  | PRODUCT_NOT_FOUND
  | INVALID_QTY
  | INVALID_COUPON
  | COUPON_ALREADY_USED
  | CART_EMPTY
  | INVALID_CART_TOTAL
  | NO_ORDERS
  | NOT_NTH_ORDER
  | UNUSED_COUPON_EXISTS
deriving Repr, DecidableEq

/-- Abstraction of a JavaScript number by the properties the cart code
inspects: `nan`, the two infinities, an integer value, or a finite
non-integer (payload: its floor, irrelevant to the modelled code). -/
inductive JsNum where
  | nan
  | posInf
  | negInf
  | intVal (i : Int)
  | nonIntFinite (floorVal : Int)
deriving Repr, DecidableEq

/-- JS truthiness of a number: `NaN` and `±0` are falsy, all other
numbers (including the infinities and non-integers) are truthy. -/
def JsNum.truthy : JsNum → Bool
  | .nan => false
  | .intVal i => i != 0
  | _ => true

/-- normalizeQty from app.js.  `Number(qty)` is the identity on numbers,
and the test `!Number.isFinite(n) || !Number.isInteger(n) || n <= 0`
rejects everything except strictly positive integers. -/
def normalizeQty (q : JsNum) : Except ErrCode Nat :=
  match q with
  | .intVal i => if i ≤ 0 then .error .INVALID_QTY else .ok i.toNat
  | _ => .error .INVALID_QTY

/-- The call-site expression `qty || 1` from the add-item route: an
absent (`undefined`) or falsy quantity is replaced by `1` before
validation. -/
def qtyOrDefault (q : Option JsNum) : JsNum :=
  match q with
  | none => .intVal 1
  | some v => if v.truthy then v else .intVal 1

/-- Whether a JS number is a (strictly) positive integer — the values
`normalizeQty` accepts. -/
def JsNum.isPosInt : JsNum → Bool
  | .intVal i => 0 < i
  | _ => false

/-- Association-list lookup for the `state.users` JS `Map`. -/
def lookupUser (l : List (String × User)) (uid : String) : Option User :=
  (l.find? (fun kv => kv.1 = uid)).map (fun kv => kv.2)

/-- `Map.set`: replace the entry in place, or append a fresh one. -/
def setUser : List (String × User) → String → User → List (String × User)
  | [], uid, u => [(uid, u)]
  | (k, v) :: rest, uid, u =>
    if k = uid then (uid, u) :: rest else (k, v) :: setUser rest uid u

/-- The mutation performed by getOrCreateUser: insert an empty user
document if the key is absent. -/
def materializeUser (s : Store) (uid : String) : Store :=
  match lookupUser s.users uid with
  | some _ => s
  | none => { s with users := setUser s.users uid { cart := [], orders := [] } }

/-- The user object returned by getOrCreateUser (defaulting to the empty
document; after `materializeUser` the default never fires). -/
def userOf (s : Store) (uid : String) : User :=
  (lookupUser s.users uid).getD { cart := [], orders := [] }

/-- getOrCreateUser from store.js: returns the (possibly fresh) user
document together with the store in which it now exists. -/
def getOrCreateUser (s : Store) (uid : String) : User × Store :=
  let s1 := materializeUser s uid
  (userOf s1 uid, s1)

/-- Observable cart of a user (an absent user has an empty cart). -/
def userCart (s : Store) (uid : String) : List CartItem :=
  ((lookupUser s.users uid).map User.cart).getD []

/-- Observable order history of a user. -/
def userOrders (s : Store) (uid : String) : List Order :=
  ((lookupUser s.users uid).map User.orders).getD []

/-- `user.cart.find(it => it.productId === productId).qty += quantity`:
increment the quantity of the first matching line. -/
def bumpQty : List CartItem → String → Nat → List CartItem
  | [], _, _ => []
  | it :: rest, pid, n =>
    if it.productId = pid then { it with qty := it.qty + n } :: rest
    else it :: bumpQty rest pid n

/-- The cart mutation of the add-item route: merge into an existing line
or append a new one. -/
def addToCart (cart : List CartItem) (pid : String) (n : Nat) : List CartItem :=
  if cart.any (fun it => it.productId = pid) then bumpQty cart pid n
  else cart ++ [{ productId := pid, qty := n }]

/-- Result of the JS property read `state.products[productId]`.
`state.products` is a plain object literal, so bracket access consults
the prototype chain: an own key yields the Product, a key naming an
inherited `Object.prototype` property yields that inherited value (a
function or object, always truthy), and any other key yields
`undefined`. -/
inductive ProductLookup where
  | found (p : Product)
  | inherited
  | missing
deriving Repr, DecidableEq

/-- The own property names of `Object.prototype` (Node.js), i.e. the
keys for which `({...})[key]` returns a truthy inherited value. -/
def protoProps : List String :=
  ["constructor", "hasOwnProperty", "isPrototypeOf", "propertyIsEnumerable",
   "toLocaleString", "toString", "valueOf", "__proto__", "__defineGetter__",
   "__defineSetter__", "__lookupGetter__", "__lookupSetter__"]

/-- `state.products[productId]` with full JS semantics: own keys first,
then the `Object.prototype` chain, else `undefined`. -/
def getProduct (products : List Product) (pid : String) : ProductLookup :=
  match products.find? (fun p => p.id = pid) with
  | some p => .found p
  | none => if pid ∈ protoProps then .inherited else .missing

/-- The value `state.products[it.productId] || null` attached to a cart
line by the view-cart route: the catalog product, the truthy inherited
object for a prototype-named key, or `null`. -/
inductive JsProductRef where
  | product (p : Product)
  | inheritedObj
  | nullRef
deriving Repr, DecidableEq

/-- JS addition on the reachable money values (naturals or NaN):
NaN absorbs. -/
def jsAdd : Option Nat → Option Nat → Option Nat
  | some a, some b => some (a + b)
  | _, _ => none

/-- JS subtraction on the reachable money values.  (In this program the
clamp keeps the subtrahend no larger than the minuend, so the natural
subtraction never truncates.) -/
def jsSub : Option Nat → Option Nat → Option Nat
  | some a, some b => some (a - b)
  | _, _ => none

/-- Independent characterization of a JS sum of money values: the
natural sum when every summand is a number, NaN as soon as one summand
is NaN. -/
def sumJs (l : List (Option Nat)) : Option Nat :=
  if l.all (fun x => x.isSome) then some ((l.map (fun x => x.getD 0)).sum) else none

/-- POST /cart/:userId/items from app.js.  `pid = ""` stands for a
missing/falsy `productId` in the request body; `qty = none` for an
absent quantity.  (Request-body quantities are modelled as JSON
numbers or absent.)  Note the user document is materialized only after
all validation passed, exactly as in the handler. -/
def addItem (s : Store) (uid pid : String) (qty : Option JsNum) :
    Except ErrCode (List CartItem) × Store :=
  if pid = "" then (.error .PRODUCT_ID_REQUIRED, s)
  else
    match getProduct s.products pid with
    | .missing => (.error .PRODUCT_NOT_FOUND, s)
    | _ =>
      match normalizeQty (qtyOrDefault qty) with
      | .error e => (.error e, s)
      | .ok n =>
        let s1 := materializeUser s uid
        let u := userOf s1 uid
        let u' := { u with cart := addToCart u.cart pid n }
        (.ok u'.cart, { s1 with users := setUser s1.users uid u' })

/-- GET /cart/:userId from app.js: join cart lines with
`state.products[it.productId] || null` and compute the total on the
fly.  A null product is skipped; a prototype-named productId attaches
the truthy inherited object, and its `price` is `undefined`, so
`sum + undefined * qty` turns the total into NaN. -/
def viewCart (s : Store) (uid : String) :
    (List (String × Nat × JsProductRef) × Option Nat) × Store :=
  let s1 := materializeUser s uid
  let u := userOf s1 uid
  let items := u.cart.map (fun it =>
    (it.productId, it.qty,
      match getProduct s.products it.productId with
      | .found p => JsProductRef.product p
      | .inherited => JsProductRef.inheritedObj
      | .missing => JsProductRef.nullRef))
  let total := items.foldl (fun sum it =>
    match it.2.2 with
    | .nullRef => sum
    | .inheritedObj => none
    | .product p => sum.map (fun x => x + p.price * it.2.1)) (some 0)
  ((items, total), s1)

/-- calculateCartTotal from store.js: an `undefined` product
(`!product`) is skipped; a prototype-named productId passes the
`!product` check and contributes `undefined * qty = NaN`, poisoning the
whole sum; and `item.qty && item.qty > 0 ? item.qty : 1` collapses, for
a `Nat` quantity, to `if 0 < qty then qty else 1`. -/
def calculateCartTotal (products : List Product) (cart : List CartItem) : Option Nat :=
  cart.foldl (fun sum item =>
    match getProduct products item.productId with
    | .missing => sum
    | .inherited => none
    | .found product =>
      sum.map (fun x => x + product.price * (if 0 < item.qty then item.qty else 1)))
    (some 0)

/-- Discount computation from placeOrder:
`Math.round(subtotal * DISCOUNT_RATE)` (round-half-up on the exact
rational `subtotal * rateNum / rateDen`, i.e.
`(2 * subtotal * rateNum + rateDen) / (2 * rateDen)` with floor
division) followed by the clamp `if (d > subtotal) d = subtotal`.
For a NaN subtotal: `Math.round(NaN * rate) = NaN` and the clamp's
`NaN > NaN` comparison is false, so the discount stays NaN. -/
def computeDiscount (cfg : Config) (subtotal : Option Nat) : Option Nat :=
  match subtotal with
  | none => none
  | some n =>
    let d := (2 * n * cfg.rateNum + cfg.rateDen) / (2 * cfg.rateDen)
    if n < d then some n else some d

/-- generateCouponCode from store.js:
`` `C-${Math.random().toString(36).slice(2, 8).toUpperCase()}` ``.
The random part is the oracle `seed`; every generated code starts with
`"C-"` and in particular is non-empty. -/
def generateCouponCode (seed : String) : String := "C-" ++ seed

/-- The coupon record built by createCouponForCurrentOrderCount. -/
def couponRecord (code : String) (t : Nat) (orderNum : Nat) : Coupon :=
  { code := code, createdAt := t, used := false,
    usedByOrderId := none, usedAt := none, createdForOrderNumber := orderNum }

/-- createCouponForCurrentOrderCount from store.js. -/
def createCouponForCurrentOrderCount (s : Store) (seed : String) (t : Nat) :
    Coupon × Store :=
  let coupon := couponRecord (generateCouponCode seed) t s.orderCount
  (coupon, { s with coupons := s.coupons ++ [coupon] })

/-- maybeGenerateCouponForNthOrder from store.js. -/
def maybeGenerateCouponForNthOrder (cfg : Config) (s : Store) (seed : String)
    (t : Nat) : Store :=
  if s.orderCount = 0 then s
  else if s.orderCount % cfg.N ≠ 0 then s
  else if s.coupons.any (fun c => !c.used) then s
  else (createCouponForCurrentOrderCount s seed t).2

/-- `coupon.used = true; coupon.usedByOrderId = ...; coupon.usedAt = ...`
on the aliased object found by getCouponByCode, i.e. the first coupon in
the registry bearing that code. -/
def markFirstUsed (l : List Coupon) (code oid : String) (t : Nat) : List Coupon :=
  match l with
  | [] => []
  | c :: rest =>
    if c.code = code then
      { c with used := true, usedByOrderId := some oid, usedAt := some t } :: rest
    else c :: markFirstUsed rest code oid t

/-- The order object built by placeOrder on its success path.  With no
coupon the discount stays the number 0 even when the subtotal is NaN.
`subtotal - discountAmount` never truncates on the numeric side (the
clamp keeps `discountAmount ≤ subtotal`), and with NaN anywhere the
total is NaN. -/
def builtOrder (cfg : Config) (s : Store) (uid : String) (coupon : Option Coupon)
    (orderId : String) (t : Nat) : Order :=
  let u := userOf s uid
  let subtotal := calculateCartTotal s.products u.cart
  let discountAmount :=
    match coupon with
    | none => some 0
    | some _ => computeDiscount cfg subtotal
  { id := orderId, userId := uid,
    items := u.cart.map (fun it => { productId := it.productId, qty := it.qty }),
    subtotal := subtotal, discountAmount := discountAmount,
    total := jsSub subtotal discountAmount,
    couponCode := coupon.map (fun c => c.code), createdAt := t }

/-- The store state right after placeOrder's success-path mutations
(coupon consumption, order append, cart clear, counter increment) but
before the issuance policy runs — the state `maybeGenerateCouponForNthOrder`
is invoked on. -/
def preIssueState (cfg : Config) (s : Store) (uid : String) (coupon : Option Coupon)
    (orderId : String) (t : Nat) : Store :=
  let s1 := materializeUser s uid
  let u := userOf s uid
  let order := builtOrder cfg s uid coupon orderId t
  let s2 :=
    match coupon with
    | none => s1
    | some c => { s1 with coupons := markFirstUsed s1.coupons c.code orderId t }
  let s3 := { s2 with
    orders := s2.orders ++ [order],
    users := setUser s2.users uid { u with orders := u.orders ++ [order], cart := [] } }
  { s3 with orderCount := s3.orderCount + 1 }

/-- placeOrder from store.js.  `orderId`, `t` and `seed` are the oracle
inputs standing for `uuidv4()`, the clock, and the `Math.random()` part
of a possibly generated coupon code.  The mutating function
getOrCreateUser runs before the empty-cart check, so the two error
exits return the user-materialized store.  The guard `subtotal <= 0`
fires exactly when the subtotal is the number 0: the reachable money
values are naturals or NaN, and `NaN <= 0` is false, so a NaN subtotal
bypasses the guard and the order is created. -/
def placeOrder (cfg : Config) (s : Store) (uid : String) (coupon : Option Coupon)
    (orderId : String) (t : Nat) (seed : String) : Except ErrCode Order × Store :=
  let s1 := materializeUser s uid
  let u := userOf s1 uid
  if u.cart.isEmpty then (.error .CART_EMPTY, s1)
  else if calculateCartTotal s1.products u.cart = some 0 then
    (.error .INVALID_CART_TOTAL, s1)
  else (.ok (builtOrder cfg s uid coupon orderId t),
    maybeGenerateCouponForNthOrder cfg (preIssueState cfg s uid coupon orderId t) seed t)

/-- getCouponByCode from store.js: `null` on a falsy code, otherwise the
first exact match. -/
def getCouponByCode (s : Store) (code : String) : Option Coupon :=
  if code = "" then none
  else s.coupons.find? (fun c => c.code = code)

/-- POST /checkout/:userId from app.js.  The result carries the order
and the `effectiveDiscountRate` as an exact rational pair
(`(rateNum, rateDen)` when a coupon applied, `(0, 1)` otherwise). -/
def checkout (cfg : Config) (s : Store) (uid : String) (couponCode : Option String)
    (orderId : String) (t : Nat) (seed : String) :
    Except ErrCode (Order × Nat × Nat) × Store :=
  let cc := couponCode.getD ""
  if cc = "" then
    match placeOrder cfg s uid none orderId t seed with
    | (.error e, s') => (.error e, s')
    | (.ok o, s') => (.ok (o, 0, 1), s')
  else
    match getCouponByCode s cc with
    | none => (.error .INVALID_COUPON, s)
    | some c =>
      if c.used then (.error .COUPON_ALREADY_USED, s)
      else
        match placeOrder cfg s uid (some c) orderId t seed with
        | (.error e, s') => (.error e, s')
        | (.ok o, s') => (.ok (o, cfg.rateNum, cfg.rateDen), s')

/-- adminGenerateCoupon from store.js. -/
def adminGenerateCoupon (cfg : Config) (s : Store) (seed : String) (t : Nat) :
    Except ErrCode Coupon × Store :=
  if s.orderCount = 0 then (.error .NO_ORDERS, s)
  else if s.orderCount % cfg.N ≠ 0 then (.error .NOT_NTH_ORDER, s)
  else if s.coupons.any (fun c => !c.used) then (.error .UNUSED_COUPON_EXISTS, s)
  else
    let (c, s') := createCouponForCurrentOrderCount s seed t
    (.ok c, s')

structure Stats where
  orderCount : Nat
  totalItemsPurchased : Nat
  totalPurchaseAmount : Option Nat
  totalDiscountAmount : Nat
  coupons : List Coupon
deriving Repr, DecidableEq

/-- getAdminStats from store.js: three `reduce` folds over the order
history plus the coupon list.  `sum + order.total` propagates NaN, so
totalPurchaseAmount is a money value; `order.discountAmount || 0`
replaces both 0 and NaN (falsy) by 0, so totalDiscountAmount always
stays a number. -/
def getAdminStats (s : Store) : Stats :=
  let totalItemsPurchased := s.orders.foldl
    (fun count o => count + o.items.foldl (fun c it => c + it.qty) 0) 0
  let totalPurchaseAmount := s.orders.foldl (fun sum o => jsAdd sum o.total) (some 0)
  let totalDiscountAmount := s.orders.foldl
    (fun sum o => sum + o.discountAmount.getD 0) 0
  { orderCount := s.orderCount,
    totalItemsPurchased := totalItemsPurchased,
    totalPurchaseAmount := totalPurchaseAmount,
    totalDiscountAmount := totalDiscountAmount,
    coupons := s.coupons }

/-- GET /admin/stats: the handler only reads the store. -/
def adminStatsRoute (s : Store) : Stats × Store := (getAdminStats s, s)

/-- Seed catalog from store.js. -/
def initialProducts : List Product :=
  [ { id := "p1", name := "T-shirt", price := 500 },
    { id := "p2", name := "Mug", price := 250 },
    { id := "p3", name := "Sticker Pack", price := 100 } ]

/-- Initial in-memory state from store.js. -/
def initialStore : Store :=
  { products := initialProducts, users := [], orders := [], coupons := [],
    orderCount := 0 }

/-- One observable transition of the store: any of the five operations
with arbitrary request inputs and oracle values.  The stats query leaves
the store unchanged. -/
inductive Step (cfg : Config) : Store → Store → Prop where
  | add (s : Store) (uid pid : String) (qty : Option JsNum) :
      Step cfg s (addItem s uid pid qty).2
  | view (s : Store) (uid : String) :
      Step cfg s (viewCart s uid).2
  | pay (s : Store) (uid : String) (cc : Option String) (oid : String)
      (t : Nat) (seed : String) :
      Step cfg s (checkout cfg s uid cc oid t seed).2
  | admin (s : Store) (seed : String) (t : Nat) :
      Step cfg s (adminGenerateCoupon cfg s seed t).2
  | statsQuery (s : Store) : Step cfg s s

/-- States reachable from the initial store. -/
def Reachable (cfg : Config) (s : Store) : Prop :=
  Relation.ReflTransGen (Step cfg) initialStore s

/-- Number of unused coupons in the registry. -/
def unusedCount (s : Store) : Nat :=
  (s.coupons.filter (fun c => !c.used)).length

/-- Registry discipline: every coupon except possibly the most recently
issued one has been consumed.  (Issuance only fires when no unused
coupon exists, and `used` never reverts, so at most the last coupon of
the registry can be unused.) -/
def CouponsOk (l : List Coupon) : Prop :=
  ∀ c ∈ l.dropLast, c.used = true

/-- Every issued coupon code is non-empty (all generated codes start
with `"C-"`), hence never falsy. -/
def CodesOk (l : List Coupon) : Prop :=
  ∀ c ∈ l, c.code ≠ ""

/-- Every cart has at most one line per product. -/
def CartsOk (s : Store) : Prop :=
  ∀ uid, ((userCart s uid).map (fun it => it.productId)).Nodup

/-- The inductive invariant maintained by every operation. -/
def StoreInv (s : Store) : Prop :=
  CouponsOk s.coupons ∧ CodesOk s.coupons ∧ CartsOk s

/-- One demo round with the default configuration: the user adds one
unit of `p1` (price 500) and checks out without a coupon. -/
def demoStep (s : Store) (uid oid seed : String) : Store :=
  (checkout defaultConfig (addItem s uid "p1" (some (.intVal 1))).2 uid none oid 0 seed).2

/-- State after one successful checkout. -/
def demo1 : Store := demoStep initialStore "u1" "o1" "s1"

/-- State after two successful checkouts. -/
def demo2 : Store := demoStep demo1 "u2" "o2" "s2"

/-- State after three successful checkouts: the third is the Nth order
(N = 3), so exactly one coupon (code `"C-s3"`) has been issued. -/
def demo3 : Store := demoStep demo2 "u3" "o3" "s3"

/-- State after a fourth successful checkout that does not use the
outstanding coupon: no second coupon is issued. -/
def demo4 : Store := demoStep demo3 "u4" "o4" "s4"

/-- State in which the coupon issued in `demo3` has been consumed by a
fourth checkout. -/
def demoUsed : Store :=
  (checkout defaultConfig (addItem demo3 "u4" "p1" (some (.intVal 1))).2 "u4"
    (some "C-s3") "o4" 0 "s4").2

/-! ### Generic list lemmas -/

theorem foldl_add_sum {α : Type} (f : α → Nat) :
    ∀ (l : List α) (a : Nat), l.foldl (fun c x => c + f x) a = a + (l.map f).sum := by
  intro l
  induction l with
  | nil => intro a; simp
  | cons x xs ih =>
    intro a
    simp only [List.foldl_cons, List.map_cons, List.sum_cons, ih]
    omega

theorem find_split {α : Type} (p : α → Bool) :
    ∀ (l : List α) (x : α), l.find? p = some x →
      ∃ l₁ l₂, l = l₁ ++ x :: l₂ ∧ ∀ y ∈ l₁, p y = false := by
  intro l
  induction l with
  | nil => intro x h; simp at h
  | cons a as ih =>
    intro x h
    by_cases hp : p a = true
    · rw [List.find?_cons_of_pos _ hp] at h
      cases h
      exact ⟨[], as, rfl, by intro y hy; simp at hy⟩
    · rw [List.find?_cons_of_neg _ hp] at h
      obtain ⟨l₁, l₂, heq, hall⟩ := ih x h
      refine ⟨a :: l₁, l₂, by rw [heq, List.cons_append], ?_⟩
      intro y hy
      rcases List.mem_cons.mp hy with rfl | hy'
      · exact Bool.eq_false_iff.mpr hp
      · exact hall y hy'

theorem find_of_mem_left {α : Type} (p : α → Bool) :
    ∀ (l₁ l₂ : List α) (y : α), y ∈ l₁ → p y = true →
      ∃ z, (l₁ ++ l₂).find? p = some z ∧ z ∈ l₁ := by
  intro l₁
  induction l₁ with
  | nil => intro l₂ y hy; cases hy
  | cons a as ih =>
    intro l₂ y hy hp
    by_cases hpa : p a = true
    · exact ⟨a, by rw [List.cons_append, List.find?_cons_of_pos _ hpa],
        List.mem_cons_self a as⟩
    · rcases List.mem_cons.mp hy with rfl | hy'
      · exact absurd hp hpa
      · obtain ⟨z, hz, hzmem⟩ := ih l₂ y hy' hp
        refine ⟨z, ?_, List.mem_cons_of_mem a hzmem⟩
        rw [List.cons_append, List.find?_cons_of_neg _ hpa]
        exact hz

/-! ### Users-map lemmas -/

theorem lookupUser_cons (k : String) (v : User) (rest : List (String × User))
    (uid : String) :
    lookupUser ((k, v) :: rest) uid = if k = uid then some v else lookupUser rest uid := by
  by_cases h : k = uid
  · simp [lookupUser, List.find?_cons_of_pos, h]
  · rw [if_neg h]
    unfold lookupUser
    rw [List.find?_cons_of_neg _ (by simp [h])]

theorem lookup_set_self :
    ∀ (l : List (String × User)) (uid : String) (u : User),
      lookupUser (setUser l uid u) uid = some u := by
  intro l
  induction l with
  | nil => intro uid u; simp [setUser, lookupUser, List.find?]
  | cons kv rest ih =>
    intro uid u
    obtain ⟨k, v⟩ := kv
    by_cases h : k = uid
    · simp [setUser, h, lookupUser_cons]
    · rw [setUser, if_neg h, lookupUser_cons, if_neg h]
      exact ih uid u

theorem lookup_set_other :
    ∀ (l : List (String × User)) (uid : String) (u : User) (v : String), v ≠ uid →
      lookupUser (setUser l uid u) v = lookupUser l v := by
  intro l
  induction l with
  | nil =>
    intro uid u v hv
    simp [setUser, lookupUser, List.find?, (Ne.symm hv : ¬uid = v)]
  | cons kv rest ih =>
    intro uid u v hv
    obtain ⟨k, v₀⟩ := kv
    by_cases h : k = uid
    · subst h
      rw [setUser, if_pos rfl, lookupUser_cons, lookupUser_cons,
        if_neg (Ne.symm hv), if_neg (Ne.symm hv)]
    · rw [setUser, if_neg h, lookupUser_cons, lookupUser_cons]
      by_cases hk : k = v
      · rw [if_pos hk, if_pos hk]
      · rw [if_neg hk, if_neg hk]
        exact ih uid u v hv

theorem set_set :
    ∀ (l : List (String × User)) (uid : String) (u₁ u₂ : User),
      setUser (setUser l uid u₁) uid u₂ = setUser l uid u₂ := by
  intro l
  induction l with
  | nil => intro uid u₁ u₂; simp [setUser]
  | cons kv rest ih =>
    intro uid u₁ u₂
    obtain ⟨k, v⟩ := kv
    by_cases h : k = uid
    · simp [setUser, h]
    · simp only [setUser, if_neg h]
      rw [ih]

/-! ### materializeUser lemmas -/

theorem materialize_products (s : Store) (uid : String) :
    (materializeUser s uid).products = s.products := by
  unfold materializeUser
  cases lookupUser s.users uid <;> rfl

theorem materialize_orders (s : Store) (uid : String) :
    (materializeUser s uid).orders = s.orders := by
  unfold materializeUser
  cases lookupUser s.users uid <;> rfl

theorem materialize_coupons (s : Store) (uid : String) :
    (materializeUser s uid).coupons = s.coupons := by
  unfold materializeUser
  cases lookupUser s.users uid <;> rfl

theorem materialize_orderCount (s : Store) (uid : String) :
    (materializeUser s uid).orderCount = s.orderCount := by
  unfold materializeUser
  cases lookupUser s.users uid <;> rfl

theorem lookup_materialize_self (s : Store) (uid : String) :
    lookupUser (materializeUser s uid).users uid = some (userOf s uid) := by
  unfold materializeUser userOf
  cases h : lookupUser s.users uid with
  | some u => simp [h]
  | none => simp [h, lookup_set_self]

theorem lookup_materialize_other (s : Store) (uid v : String) (hv : v ≠ uid) :
    lookupUser (materializeUser s uid).users v = lookupUser s.users v := by
  unfold materializeUser
  cases h : lookupUser s.users uid with
  | some u => rfl
  | none => simpa using lookup_set_other s.users uid _ v hv

theorem userOf_materialize (s : Store) (uid v : String) :
    userOf (materializeUser s uid) v = userOf s v := by
  by_cases hv : v = uid
  · subst hv
    unfold userOf
    rw [lookup_materialize_self]
    rfl
  · unfold userOf
    rw [lookup_materialize_other s uid v hv]

theorem materialize_of_lookup_some (s : Store) (uid : String) (u : User)
    (h : lookupUser s.users uid = some u) : materializeUser s uid = s := by
  unfold materializeUser
  rw [h]

theorem userCart_eq_userOf (s : Store) (uid : String) :
    userCart s uid = (userOf s uid).cart := by
  unfold userCart userOf
  cases h : lookupUser s.users uid <;> rfl

theorem userOrders_eq_userOf (s : Store) (uid : String) :
    userOrders s uid = (userOf s uid).orders := by
  unfold userOrders userOf
  cases h : lookupUser s.users uid <;> rfl

theorem userCart_materialize (s : Store) (uid v : String) :
    userCart (materializeUser s uid) v = userCart s v := by
  rw [userCart_eq_userOf, userCart_eq_userOf, userOf_materialize]

theorem userOrders_materialize (s : Store) (uid v : String) :
    userOrders (materializeUser s uid) v = userOrders s v := by
  rw [userOrders_eq_userOf, userOrders_eq_userOf, userOf_materialize]

/-! ### Coupon-registry lemmas -/

theorem markFirstUsed_split (c : Coupon) (l₂ : List Coupon) (code oid : String)
    (t : Nat) (hc : c.code = code) :
    ∀ l₁ : List Coupon, (∀ y ∈ l₁, y.code ≠ code) →
      markFirstUsed (l₁ ++ c :: l₂) code oid t =
        l₁ ++ { c with used := true, usedByOrderId := some oid, usedAt := some t } :: l₂ := by
  intro l₁
  induction l₁ with
  | nil => intro _; simp [markFirstUsed, hc]
  | cons a as ih =>
    intro h
    have ha : a.code ≠ code := h a (List.mem_cons_self a as)
    simp only [List.cons_append, markFirstUsed, if_neg ha, List.append_eq]
    rw [ih (fun y hy => h y (List.mem_cons_of_mem a hy))]

theorem markFirstUsed_map_code (code oid : String) (t : Nat) :
    ∀ l : List Coupon,
      (markFirstUsed l code oid t).map Coupon.code = l.map Coupon.code := by
  intro l
  induction l with
  | nil => rfl
  | cons a as ih =>
    by_cases h : a.code = code
    · simp [markFirstUsed, h]
    · simp [markFirstUsed, h, ih]

theorem all_used_of_not_any (l : List Coupon)
    (h : l.any (fun c => !c.used) = false) : ∀ x ∈ l, x.used = true := by
  intro x hx
  by_contra hu
  have hx' : l.any (fun c => !c.used) = true :=
    List.any_eq_true.mpr ⟨x, hx, by simp [Bool.eq_false_iff.mpr hu]⟩
  rw [h] at hx'
  cases hx'

theorem couponsOk_append (l : List Coupon) (c : Coupon)
    (h : ∀ x ∈ l, x.used = true) : CouponsOk (l ++ [c]) := by
  intro x hx
  rw [List.dropLast_concat] at hx
  exact h x hx

theorem couponsOk_mark (l : List Coupon) (code oid : String) (t : Nat)
    (hok : CouponsOk l) (c : Coupon)
    (hfind : l.find? (fun x => x.code = code) = some c) (hunused : c.used = false) :
    CouponsOk (markFirstUsed l code oid t) := by
  have hcode : c.code = code := by simpa using List.find?_some hfind
  obtain ⟨l₁, l₂, heq, hall⟩ := find_split _ l c hfind
  subst heq
  have hall' : ∀ y ∈ l₁, y.code ≠ code := by
    intro y hy
    simpa using hall y hy
  cases l₂ with
  | cons d l₂' =>
    exfalso
    have hcmem : c ∈ (l₁ ++ c :: d :: l₂').dropLast := by
      rw [List.dropLast_append_of_ne_nil _ (by simp)]
      refine List.mem_append_right _ ?_
      show c ∈ (c :: d :: l₂').dropLast
      rw [show (c :: d :: l₂').dropLast = c :: (d :: l₂').dropLast from rfl]
      exact List.mem_cons_self _ _
    have := hok c hcmem
    rw [hunused] at this
    cases this
  | nil =>
    have hl₁ : ∀ x ∈ l₁, x.used = true := by
      intro x hx
      exact hok x (by rw [List.dropLast_concat]; exact hx)
    rw [markFirstUsed_split c [] code oid t hcode l₁ hall']
    intro x hx
    rw [List.dropLast_concat] at hx
    exact hl₁ x hx

theorem codesOk_mark (l : List Coupon) (code oid : String) (t : Nat)
    (h : CodesOk l) : CodesOk (markFirstUsed l code oid t) := by
  intro c hc
  have hmem : c.code ∈ (markFirstUsed l code oid t).map Coupon.code :=
    List.mem_map_of_mem _ hc
  rw [markFirstUsed_map_code] at hmem
  obtain ⟨c₀, hc₀, he⟩ := List.mem_map.mp hmem
  rw [← he]
  exact h c₀ hc₀

theorem generated_code_ne_empty (seed : String) : generateCouponCode seed ≠ "" := by
  unfold generateCouponCode
  intro h
  have hlen := congrArg String.length h
  rw [String.length_append] at hlen
  have h2 : "C-".length = 2 := rfl
  have h0 : "".length = 0 := rfl
  omega

theorem codesOk_append (l : List Coupon) (seed : String) (t orderNum : Nat)
    (h : CodesOk l) :
    CodesOk (l ++ [couponRecord (generateCouponCode seed) t orderNum]) := by
  intro c hc
  rcases List.mem_append.mp hc with hc' | hc'
  · exact h c hc'
  · have : c = couponRecord (generateCouponCode seed) t orderNum := by simpa using hc'
    rw [this]
    exact generated_code_ne_empty seed

/-! ### maybeGenerateCouponForNthOrder lemmas -/

theorem maybeGen_users (cfg : Config) (s : Store) (seed : String) (t : Nat) :
    (maybeGenerateCouponForNthOrder cfg s seed t).users = s.users := by
  unfold maybeGenerateCouponForNthOrder createCouponForCurrentOrderCount
  split
  · rfl
  · split
    · rfl
    · split <;> rfl

theorem maybeGen_orders (cfg : Config) (s : Store) (seed : String) (t : Nat) :
    (maybeGenerateCouponForNthOrder cfg s seed t).orders = s.orders := by
  unfold maybeGenerateCouponForNthOrder createCouponForCurrentOrderCount
  split
  · rfl
  · split
    · rfl
    · split <;> rfl

theorem maybeGen_orderCount (cfg : Config) (s : Store) (seed : String) (t : Nat) :
    (maybeGenerateCouponForNthOrder cfg s seed t).orderCount = s.orderCount := by
  unfold maybeGenerateCouponForNthOrder createCouponForCurrentOrderCount
  split
  · rfl
  · split
    · rfl
    · split <;> rfl

theorem couponsOk_maybeGen (cfg : Config) (s : Store) (seed : String) (t : Nat)
    (h : CouponsOk s.coupons) :
    CouponsOk (maybeGenerateCouponForNthOrder cfg s seed t).coupons := by
  unfold maybeGenerateCouponForNthOrder createCouponForCurrentOrderCount
  split
  · exact h
  · split
    · exact h
    · split
      · exact h
      · next hany =>
        exact couponsOk_append _ _
          (all_used_of_not_any _ (Bool.eq_false_iff.mpr hany))

theorem codesOk_maybeGen (cfg : Config) (s : Store) (seed : String) (t : Nat)
    (h : CodesOk s.coupons) :
    CodesOk (maybeGenerateCouponForNthOrder cfg s seed t).coupons := by
  unfold maybeGenerateCouponForNthOrder createCouponForCurrentOrderCount
  split
  · exact h
  · split
    · exact h
    · split
      · exact h
      · exact codesOk_append _ _ _ _ h

theorem userCart_maybeGen (cfg : Config) (s : Store) (seed : String) (t : Nat)
    (v : String) :
    userCart (maybeGenerateCouponForNthOrder cfg s seed t) v = userCart s v := by
  unfold userCart
  rw [maybeGen_users]

/-! ### Cart lemmas -/

theorem bumpQty_map_productId (pid : String) (n : Nat) :
    ∀ l : List CartItem,
      (bumpQty l pid n).map (fun it => it.productId) = l.map (fun it => it.productId) := by
  intro l
  induction l with
  | nil => rfl
  | cons it rest ih =>
    by_cases h : it.productId = pid
    · simp [bumpQty, h]
    · simp [bumpQty, h, ih]

theorem bumpQty_any (pid : String) (n : Nat) :
    ∀ l : List CartItem,
      (bumpQty l pid n).any (fun it => it.productId = pid) =
        l.any (fun it => it.productId = pid) := by
  intro l
  induction l with
  | nil => rfl
  | cons it rest ih =>
    by_cases h : it.productId = pid
    · simp [bumpQty, h]
    · simp [bumpQty, h, ih]

theorem bumpQty_bumpQty (pid : String) (x y : Nat) :
    ∀ l : List CartItem, bumpQty (bumpQty l pid x) pid y = bumpQty l pid (x + y) := by
  intro l
  induction l with
  | nil => rfl
  | cons it rest ih =>
    by_cases h : it.productId = pid
    · simp [bumpQty, h, Nat.add_assoc]
    · simp [bumpQty, h, ih]

theorem bumpQty_append (pid : String) (x y : Nat) :
    ∀ l : List CartItem, l.any (fun it => it.productId = pid) = false →
      bumpQty (l ++ [{ productId := pid, qty := x }]) pid y =
        l ++ [{ productId := pid, qty := x + y }] := by
  intro l
  induction l with
  | nil => intro _; simp [bumpQty]
  | cons it rest ih =>
    intro h
    rw [List.any_cons, Bool.or_eq_false_iff] at h
    obtain ⟨h1, h2⟩ := h
    have hne : it.productId ≠ pid := by simpa using h1
    simp only [List.cons_append, bumpQty, if_neg hne, List.append_eq]
    rw [ih h2]

theorem addToCart_any (cart : List CartItem) (pid : String) (n : Nat) :
    (addToCart cart pid n).any (fun it => it.productId = pid) = true := by
  unfold addToCart
  by_cases h : cart.any (fun it => it.productId = pid) = true
  · rw [if_pos h, bumpQty_any]
    exact h
  · rw [if_neg h, List.any_append]
    simp

theorem addToCart_addToCart (cart : List CartItem) (pid : String) (x y : Nat) :
    addToCart (addToCart cart pid x) pid y = addToCart cart pid (x + y) := by
  by_cases h : cart.any (fun it => it.productId = pid) = true
  · rw [addToCart, if_pos (by rw [addToCart, if_pos h, bumpQty_any]; exact h)]
    rw [addToCart, if_pos h, addToCart, if_pos h]
    exact bumpQty_bumpQty pid x y cart
  · have hf : cart.any (fun it => it.productId = pid) = false := Bool.eq_false_iff.mpr h
    rw [addToCart, if_pos (addToCart_any cart pid x)]
    rw [addToCart, if_neg h, addToCart, if_neg h]
    exact bumpQty_append pid x y cart hf

theorem addToCart_nodup (cart : List CartItem) (pid : String) (n : Nat)
    (h : (cart.map (fun it => it.productId)).Nodup) :
    ((addToCart cart pid n).map (fun it => it.productId)).Nodup := by
  unfold addToCart
  split
  · rw [bumpQty_map_productId]
    exact h
  · next hany =>
    rw [List.map_append]
    have hnot : pid ∉ cart.map (fun it => it.productId) := by
      intro hmem
      obtain ⟨it, hit, he⟩ := List.mem_map.mp hmem
      exact hany (List.any_eq_true.mpr ⟨it, hit, by simp [he]⟩)
    rw [List.nodup_append]
    refine ⟨h, List.nodup_singleton _, ?_⟩
    intro a ha hb
    have : a = pid := by simpa using hb
    rw [this] at ha
    exact hnot ha

/-! ### Shape lemmas for the operations -/

theorem userCart_setUser (s : Store) (uid : String) (u : User) (v : String) :
    userCart { s with users := setUser s.users uid u } v =
      if v = uid then u.cart else userCart s v := by
  unfold userCart
  by_cases hv : v = uid
  · subst hv
    rw [if_pos rfl]
    show ((lookupUser (setUser s.users v u) v).map User.cart).getD [] = u.cart
    rw [lookup_set_self]
    rfl
  · rw [if_neg hv]
    show ((lookupUser (setUser s.users uid u) v).map User.cart).getD [] = _
    rw [lookup_set_other s.users uid u v hv]

theorem userOrders_setUser (s : Store) (uid : String) (u : User) (v : String) :
    userOrders { s with users := setUser s.users uid u } v =
      if v = uid then u.orders else userOrders s v := by
  unfold userOrders
  by_cases hv : v = uid
  · subst hv
    rw [if_pos rfl]
    show ((lookupUser (setUser s.users v u) v).map User.orders).getD [] = u.orders
    rw [lookup_set_self]
    rfl
  · rw [if_neg hv]
    show ((lookupUser (setUser s.users uid u) v).map User.orders).getD [] = _
    rw [lookup_set_other s.users uid u v hv]

theorem addItem_snd (s : Store) (uid pid : String) (qty : Option JsNum) :
    (addItem s uid pid qty).2 = s ∨
      ∃ n, normalizeQty (qtyOrDefault qty) = .ok n ∧
        (addItem s uid pid qty).2 =
          { materializeUser s uid with
              users := setUser (materializeUser s uid).users uid
                { userOf s uid with cart := addToCart (userOf s uid).cart pid n } } := by
  unfold addItem
  by_cases hpid : pid = ""
  · left
    rw [if_pos hpid]
  · rw [if_neg hpid]
    cases hg : getProduct s.products pid with
    | missing => left; rfl
    | found prod =>
      cases hq : normalizeQty (qtyOrDefault qty) with
      | error e => left; rfl
      | ok n =>
        right
        refine ⟨n, rfl, ?_⟩
        show { materializeUser s uid with
            users := setUser (materializeUser s uid).users uid
              { userOf (materializeUser s uid) uid with
                  cart := addToCart (userOf (materializeUser s uid) uid).cart pid n } } = _
        rw [userOf_materialize]
    | inherited =>
      cases hq : normalizeQty (qtyOrDefault qty) with
      | error e => left; rfl
      | ok n =>
        right
        refine ⟨n, rfl, ?_⟩
        show { materializeUser s uid with
            users := setUser (materializeUser s uid).users uid
              { userOf (materializeUser s uid) uid with
                  cart := addToCart (userOf (materializeUser s uid) uid).cart pid n } } = _
        rw [userOf_materialize]

theorem viewCart_snd (s : Store) (uid : String) :
    (viewCart s uid).2 = materializeUser s uid := rfl

theorem placeOrder_cartEmpty (cfg : Config) (s : Store) (uid : String)
    (co : Option Coupon) (oid : String) (t : Nat) (seed : String)
    (h : (userOf s uid).cart.isEmpty = true) :
    placeOrder cfg s uid co oid t seed = (.error .CART_EMPTY, materializeUser s uid) := by
  simp only [placeOrder]
  rw [userOf_materialize, if_pos h]

theorem placeOrder_zeroTotal (cfg : Config) (s : Store) (uid : String)
    (co : Option Coupon) (oid : String) (t : Nat) (seed : String)
    (h1 : (userOf s uid).cart.isEmpty = false)
    (h2 : calculateCartTotal s.products (userOf s uid).cart = some 0) :
    placeOrder cfg s uid co oid t seed =
      (.error .INVALID_CART_TOTAL, materializeUser s uid) := by
  simp only [placeOrder]
  rw [userOf_materialize, materialize_products, if_neg (by rw [h1]; exact Bool.false_ne_true),
    if_pos h2]

theorem placeOrder_success (cfg : Config) (s : Store) (uid : String)
    (co : Option Coupon) (oid : String) (t : Nat) (seed : String)
    (h1 : (userOf s uid).cart.isEmpty = false)
    (h2 : calculateCartTotal s.products (userOf s uid).cart ≠ some 0) :
    placeOrder cfg s uid co oid t seed =
      (.ok (builtOrder cfg s uid co oid t),
        maybeGenerateCouponForNthOrder cfg (preIssueState cfg s uid co oid t) seed t) := by
  simp only [placeOrder]
  rw [userOf_materialize, materialize_products, if_neg (by rw [h1]; exact Bool.false_ne_true),
    if_neg h2]

theorem placeOrder_error_cases (cfg : Config) (s : Store) (uid : String)
    (co : Option Coupon) (oid : String) (t : Nat) (seed : String) (e : ErrCode) (s' : Store)
    (h : placeOrder cfg s uid co oid t seed = (.error e, s')) :
    s' = materializeUser s uid ∧ (e = .CART_EMPTY ∨ e = .INVALID_CART_TOTAL) := by
  by_cases h1 : (userOf s uid).cart.isEmpty = true
  · rw [placeOrder_cartEmpty cfg s uid co oid t seed h1] at h
    rw [Prod.ext_iff] at h
    obtain ⟨he, hs⟩ := h
    refine ⟨hs.symm, Or.inl ?_⟩
    cases he
    rfl
  · have h1' : (userOf s uid).cart.isEmpty = false := Bool.eq_false_iff.mpr h1
    by_cases h2 : calculateCartTotal s.products (userOf s uid).cart = some 0
    · rw [placeOrder_zeroTotal cfg s uid co oid t seed h1' h2] at h
      rw [Prod.ext_iff] at h
      obtain ⟨he, hs⟩ := h
      refine ⟨hs.symm, Or.inr ?_⟩
      cases he
      rfl
    · rw [placeOrder_success cfg s uid co oid t seed h1' h2] at h
      rw [Prod.ext_iff] at h
      cases h.1

theorem placeOrder_ok_cases (cfg : Config) (s : Store) (uid : String)
    (co : Option Coupon) (oid : String) (t : Nat) (seed : String) (o : Order) (s' : Store)
    (h : placeOrder cfg s uid co oid t seed = (.ok o, s')) :
    o = builtOrder cfg s uid co oid t ∧
      s' = maybeGenerateCouponForNthOrder cfg (preIssueState cfg s uid co oid t) seed t := by
  by_cases h1 : (userOf s uid).cart.isEmpty = true
  · rw [placeOrder_cartEmpty cfg s uid co oid t seed h1] at h
    rw [Prod.ext_iff] at h
    cases h.1
  · have h1' : (userOf s uid).cart.isEmpty = false := Bool.eq_false_iff.mpr h1
    by_cases h2 : calculateCartTotal s.products (userOf s uid).cart = some 0
    · rw [placeOrder_zeroTotal cfg s uid co oid t seed h1' h2] at h
      rw [Prod.ext_iff] at h
      cases h.1
    · rw [placeOrder_success cfg s uid co oid t seed h1' h2] at h
      rw [Prod.ext_iff] at h
      obtain ⟨he, hs⟩ := h
      cases he
      exact ⟨rfl, hs.symm⟩

theorem preIssue_orderCount (cfg : Config) (s : Store) (uid : String)
    (co : Option Coupon) (oid : String) (t : Nat) :
    (preIssueState cfg s uid co oid t).orderCount = s.orderCount + 1 := by
  cases co <;> simp [preIssueState, materialize_orderCount]

theorem preIssue_coupons_none (cfg : Config) (s : Store) (uid : String)
    (oid : String) (t : Nat) :
    (preIssueState cfg s uid none oid t).coupons = s.coupons := by
  simp [preIssueState, materialize_coupons]

theorem preIssue_coupons_some (cfg : Config) (s : Store) (uid : String)
    (c : Coupon) (oid : String) (t : Nat) :
    (preIssueState cfg s uid (some c) oid t).coupons =
      markFirstUsed s.coupons c.code oid t := by
  simp [preIssueState, materialize_coupons]

theorem preIssue_users (cfg : Config) (s : Store) (uid : String)
    (co : Option Coupon) (oid : String) (t : Nat) :
    (preIssueState cfg s uid co oid t).users =
      setUser (materializeUser s uid).users uid
        { userOf s uid with
            orders := (userOf s uid).orders ++ [builtOrder cfg s uid co oid t],
            cart := [] } := by
  cases co <;> simp [preIssueState]

theorem userCart_preIssue (cfg : Config) (s : Store) (uid : String)
    (co : Option Coupon) (oid : String) (t : Nat) (v : String) :
    userCart (preIssueState cfg s uid co oid t) v =
      if v = uid then [] else userCart s v := by
  by_cases hv : v = uid
  · subst hv
    unfold userCart
    rw [preIssue_users, lookup_set_self, if_pos rfl]
    rfl
  · unfold userCart
    rw [preIssue_users, lookup_set_other _ _ _ _ hv, if_neg hv]
    rw [lookup_materialize_other s uid v hv]

/-! ### Invariant preservation -/

theorem inv_materialize (s : Store) (uid : String) (h : StoreInv s) :
    StoreInv (materializeUser s uid) := by
  obtain ⟨h1, h2, h3⟩ := h
  refine ⟨?_, ?_, ?_⟩
  · rw [materialize_coupons]; exact h1
  · rw [materialize_coupons]; exact h2
  · intro v; rw [userCart_materialize]; exact h3 v

theorem inv_addItem (s : Store) (uid pid : String) (qty : Option JsNum)
    (h : StoreInv s) : StoreInv (addItem s uid pid qty).2 := by
  rcases addItem_snd s uid pid qty with heq | ⟨n, _, heq⟩
  · rw [heq]; exact h
  · rw [heq]
    obtain ⟨h1, h2, h3⟩ := h
    refine ⟨?_, ?_, ?_⟩
    · show CouponsOk (materializeUser s uid).coupons
      rw [materialize_coupons]; exact h1
    · show CodesOk (materializeUser s uid).coupons
      rw [materialize_coupons]; exact h2
    · intro v
      rw [userCart_setUser]
      by_cases hv : v = uid
      · rw [if_pos hv]
        refine addToCart_nodup _ _ _ ?_
        have := h3 uid
        rw [userCart_eq_userOf] at this
        exact this
      · rw [if_neg hv, userCart_materialize]
        exact h3 v

theorem inv_viewCart (s : Store) (uid : String) (h : StoreInv s) :
    StoreInv (viewCart s uid).2 := by
  rw [viewCart_snd]
  exact inv_materialize s uid h

theorem inv_preIssue (cfg : Config) (s : Store) (uid : String)
    (co : Option Coupon) (oid : String) (t : Nat) (h : StoreInv s)
    (hco : ∀ c, co = some c →
      s.coupons.find? (fun x => x.code = c.code) = some c ∧ c.used = false) :
    StoreInv (preIssueState cfg s uid co oid t) := by
  obtain ⟨h1, h2, h3⟩ := h
  refine ⟨?_, ?_, ?_⟩
  · cases co with
    | none => rw [preIssue_coupons_none]; exact h1
    | some c =>
      rw [preIssue_coupons_some]
      obtain ⟨hfind, hunused⟩ := hco c rfl
      exact couponsOk_mark s.coupons c.code oid t h1 c hfind hunused
  · cases co with
    | none => rw [preIssue_coupons_none]; exact h2
    | some c =>
      rw [preIssue_coupons_some]
      exact codesOk_mark s.coupons c.code oid t h2
  · intro v
    rw [userCart_preIssue]
    by_cases hv : v = uid
    · rw [if_pos hv]; exact List.nodup_nil
    · rw [if_neg hv]; exact h3 v

theorem inv_placeOrder (cfg : Config) (s : Store) (uid : String)
    (co : Option Coupon) (oid : String) (t : Nat) (seed : String) (h : StoreInv s)
    (hco : ∀ c, co = some c →
      s.coupons.find? (fun x => x.code = c.code) = some c ∧ c.used = false) :
    StoreInv (placeOrder cfg s uid co oid t seed).2 := by
  by_cases h1 : (userOf s uid).cart.isEmpty = true
  · rw [placeOrder_cartEmpty cfg s uid co oid t seed h1]
    exact inv_materialize s uid h
  · have h1' : (userOf s uid).cart.isEmpty = false := Bool.eq_false_iff.mpr h1
    by_cases h2 : calculateCartTotal s.products (userOf s uid).cart = some 0
    · rw [placeOrder_zeroTotal cfg s uid co oid t seed h1' h2]
      exact inv_materialize s uid h
    · rw [placeOrder_success cfg s uid co oid t seed h1' h2]
      have hpre := inv_preIssue cfg s uid co oid t h hco
      obtain ⟨p1, p2, p3⟩ := hpre
      refine ⟨couponsOk_maybeGen _ _ _ _ p1, codesOk_maybeGen _ _ _ _ p2, ?_⟩
      intro v
      rw [userCart_maybeGen]
      exact p3 v

theorem checkout_snd_falsy (cfg : Config) (s : Store) (uid : String)
    (cc : Option String) (oid : String) (t : Nat) (seed : String)
    (hcc : cc.getD "" = "") :
    (checkout cfg s uid cc oid t seed).2 = (placeOrder cfg s uid none oid t seed).2 := by
  unfold checkout
  rw [hcc, if_pos rfl]
  cases hpo : placeOrder cfg s uid none oid t seed with
  | mk r st => cases r <;> rfl

theorem inv_checkout (cfg : Config) (s : Store) (uid : String)
    (cc : Option String) (oid : String) (t : Nat) (seed : String) (h : StoreInv s) :
    StoreInv (checkout cfg s uid cc oid t seed).2 := by
  by_cases hcc : cc.getD "" = ""
  · rw [checkout_snd_falsy cfg s uid cc oid t seed hcc]
    exact inv_placeOrder cfg s uid none oid t seed h (by intro c hc; cases hc)
  · unfold checkout
    rw [if_neg hcc]
    split
    · exact h
    · next c hlook =>
      split
      · exact h
      · next hcu =>
        have hcu' : c.used = false := Bool.eq_false_iff.mpr hcu
        have hfind : s.coupons.find? (fun x => x.code = cc.getD "") = some c := by
          unfold getCouponByCode at hlook
          rw [if_neg hcc] at hlook
          exact hlook
        have hcode : c.code = cc.getD "" := by simpa using List.find?_some hfind
        have hco : ∀ c', some c = some c' →
            s.coupons.find? (fun x => x.code = c'.code) = some c' ∧ c'.used = false := by
          intro c' hc'
          cases hc'
          rw [hcode]
          exact ⟨hfind, hcu'⟩
        have hinv := inv_placeOrder cfg s uid (some c) oid t seed h hco
        split
        · next e s' hpo =>
          rw [hpo] at hinv
          exact hinv
        · next o s' hpo =>
          rw [hpo] at hinv
          exact hinv

theorem inv_admin (cfg : Config) (s : Store) (seed : String) (t : Nat)
    (h : StoreInv s) : StoreInv (adminGenerateCoupon cfg s seed t).2 := by
  unfold adminGenerateCoupon createCouponForCurrentOrderCount
  split
  · exact h
  · split
    · exact h
    · split
      · exact h
      · next hany =>
        obtain ⟨h1, h2, h3⟩ := h
        refine ⟨?_, ?_, h3⟩
        · exact couponsOk_append _ _
            (all_used_of_not_any _ (Bool.eq_false_iff.mpr hany))
        · exact codesOk_append _ _ _ _ h2

theorem inv_initial : StoreInv initialStore := by
  refine ⟨?_, ?_, ?_⟩
  · intro c hc; cases hc
  · intro c hc; cases hc
  · intro v
    show ((userCart initialStore v).map (fun it => it.productId)).Nodup
    have : userCart initialStore v = [] := rfl
    rw [this]
    exact List.nodup_nil

theorem inv_step (cfg : Config) (s s' : Store) (h : StoreInv s)
    (hstep : Step cfg s s') : StoreInv s' := by
  cases hstep with
  | add uid pid qty => exact inv_addItem s uid pid qty h
  | view uid => exact inv_viewCart s uid h
  | pay uid cc oid t seed => exact inv_checkout cfg s uid cc oid t seed h
  | admin seed t => exact inv_admin cfg s seed t h
  | statsQuery => exact h

theorem inv_reachable (cfg : Config) (s : Store) (h : Reachable cfg s) :
    StoreInv s := by
  induction h with
  | refl => exact inv_initial
  | tail _ hstep ih => exact inv_step cfg _ _ ih hstep

/-! ### Checkout result lemmas -/

theorem checkout_falsy_error (cfg : Config) (s : Store) (uid : String)
    (cc : Option String) (oid : String) (t : Nat) (seed : String) (e : ErrCode)
    (s' : Store) (hcc : cc.getD "" = "")
    (h : checkout cfg s uid cc oid t seed = (.error e, s')) :
    placeOrder cfg s uid none oid t seed = (.error e, s') := by
  unfold checkout at h
  rw [hcc, if_pos rfl] at h
  cases hpo : placeOrder cfg s uid none oid t seed with
  | mk r st =>
    rw [hpo] at h
    cases r with
    | error e' =>
      simp only [Prod.mk.injEq, Except.error.injEq] at h
      rw [h.1, h.2]
    | ok o => simp at h

theorem checkout_falsy_ok (cfg : Config) (s : Store) (uid : String)
    (cc : Option String) (oid : String) (t : Nat) (seed : String) (o : Order)
    (rn rd : Nat) (s' : Store) (hcc : cc.getD "" = "")
    (h : checkout cfg s uid cc oid t seed = (.ok (o, rn, rd), s')) :
    placeOrder cfg s uid none oid t seed = (.ok o, s') ∧ rn = 0 ∧ rd = 1 := by
  unfold checkout at h
  rw [hcc, if_pos rfl] at h
  cases hpo : placeOrder cfg s uid none oid t seed with
  | mk r st =>
    rw [hpo] at h
    cases r with
    | error e' => simp at h
    | ok o' =>
      simp only [Prod.mk.injEq, Except.ok.injEq] at h
      obtain ⟨⟨ho, hrn, hrd⟩, hs⟩ := h
      exact ⟨by rw [ho, hs], hrn.symm, hrd.symm⟩

theorem checkout_coupon_ok (cfg : Config) (s : Store) (uid : String)
    (cc : Option String) (oid : String) (t : Nat) (seed : String) (o : Order)
    (rn rd : Nat) (s' : Store) (hcc : cc.getD "" ≠ "")
    (h : checkout cfg s uid cc oid t seed = (.ok (o, rn, rd), s')) :
    ∃ c, getCouponByCode s (cc.getD "") = some c ∧ c.used = false ∧
      placeOrder cfg s uid (some c) oid t seed = (.ok o, s') ∧
      rn = cfg.rateNum ∧ rd = cfg.rateDen := by
  unfold checkout at h
  rw [if_neg hcc] at h
  split at h
  · simp at h
  · next c hlook =>
    split at h
    · simp at h
    · next hcu =>
      split at h
      · next e' st hpo => simp at h
      · next o' st hpo =>
        simp only [Prod.mk.injEq, Except.ok.injEq] at h
        obtain ⟨⟨ho, hrn, hrd⟩, hs⟩ := h
        exact ⟨c, hlook, Bool.eq_false_iff.mpr hcu,
          by rw [← ho, ← hs]; exact hpo, hrn.symm, hrd.symm⟩

theorem checkout_error_states (cfg : Config) (s : Store) (uid : String)
    (cc : Option String) (oid : String) (t : Nat) (seed : String) (e : ErrCode)
    (s' : Store) (h : checkout cfg s uid cc oid t seed = (.error e, s')) :
    s' = s ∨ s' = materializeUser s uid := by
  by_cases hcc : cc.getD "" = ""
  · right
    exact (placeOrder_error_cases cfg s uid none oid t seed e s'
      (checkout_falsy_error cfg s uid cc oid t seed e s' hcc h)).1
  · unfold checkout at h
    rw [if_neg hcc] at h
    split at h
    · left
      rw [Prod.ext_iff] at h
      exact h.2.symm
    · next c hlook =>
      split at h
      · left
        rw [Prod.ext_iff] at h
        exact h.2.symm
      · next hcu =>
        split at h
        · next e' st hpo =>
          simp only [Prod.mk.injEq] at h
          obtain ⟨he, hs⟩ := h
          right
          rw [← hs]
          exact (placeOrder_error_cases cfg s uid (some c) oid t seed e' st hpo).1
        · next o' st hpo =>
          simp only [Prod.mk.injEq] at h
          cases h.1

/-! ### Discount and order-shape lemmas -/

theorem computeDiscount_eq_min (cfg : Config) (st : Nat) :
    computeDiscount cfg (some st) =
      some (min ((2 * st * cfg.rateNum + cfg.rateDen) / (2 * cfg.rateDen)) st) := by
  show (if st < (2 * st * cfg.rateNum + cfg.rateDen) / (2 * cfg.rateDen) then some st
      else some ((2 * st * cfg.rateNum + cfg.rateDen) / (2 * cfg.rateDen))) =
    some (min ((2 * st * cfg.rateNum + cfg.rateDen) / (2 * cfg.rateDen)) st)
  rw [Nat.min_def]
  rcases Nat.lt_or_ge st ((2 * st * cfg.rateNum + cfg.rateDen) / (2 * cfg.rateDen)) with hlt | hge
  · rw [if_pos hlt, if_neg (by omega)]
  · rw [if_neg (by omega), if_pos (by omega)]

theorem computeDiscount_none (cfg : Config) : computeDiscount cfg none = none := rfl

theorem computeDiscount_le (cfg : Config) (st d : Nat)
    (h : computeDiscount cfg (some st) = some d) : d ≤ st := by
  rw [computeDiscount_eq_min] at h
  cases h
  exact Nat.min_le_right _ _

theorem jsSub_zero (x : Option Nat) : jsSub x (some 0) = x := by
  cases x with
  | none => rfl
  | some n => show some (n - 0) = some n; rw [Nat.sub_zero]

theorem builtOrder_subtotal (cfg : Config) (s : Store) (uid : String)
    (co : Option Coupon) (oid : String) (t : Nat) :
    (builtOrder cfg s uid co oid t).subtotal =
      calculateCartTotal s.products (userOf s uid).cart := rfl

theorem builtOrder_discount_none (cfg : Config) (s : Store) (uid : String)
    (oid : String) (t : Nat) :
    (builtOrder cfg s uid none oid t).discountAmount = some 0 := rfl

theorem builtOrder_discount_some (cfg : Config) (s : Store) (uid : String)
    (c : Coupon) (oid : String) (t : Nat) :
    (builtOrder cfg s uid (some c) oid t).discountAmount =
      computeDiscount cfg (builtOrder cfg s uid (some c) oid t).subtotal := rfl

theorem builtOrder_total (cfg : Config) (s : Store) (uid : String)
    (co : Option Coupon) (oid : String) (t : Nat) :
    (builtOrder cfg s uid co oid t).total =
      jsSub (builtOrder cfg s uid co oid t).subtotal
        (builtOrder cfg s uid co oid t).discountAmount := by
  cases co <;> rfl

theorem builtOrder_couponCode_none (cfg : Config) (s : Store) (uid : String)
    (oid : String) (t : Nat) :
    (builtOrder cfg s uid none oid t).couponCode = none := rfl

/-! ### normalizeQty lemmas -/

theorem normalizeQty_not_posInt (v : JsNum) (hv : v.isPosInt = false) :
    normalizeQty v = .error .INVALID_QTY := by
  cases v with
  | intVal i =>
    have hnp : ¬0 < i := by simpa [JsNum.isPosInt] using hv
    have hle : i ≤ 0 := by omega
    simp [normalizeQty, hle]
  | nan => rfl
  | posInf => rfl
  | negInf => rfl
  | nonIntFinite f => rfl

theorem normalizeQty_posInt (i : Int) (hi : 0 < i) :
    normalizeQty (.intVal i) = .ok i.toNat := by
  have hnl : ¬i ≤ 0 := by omega
  simp [normalizeQty, hnl]

theorem qtyOrDefault_truthy (v : JsNum) (hv : v.truthy = true) :
    qtyOrDefault (some v) = v := by
  simp [qtyOrDefault, hv]

theorem qtyOrDefault_falsy (v : JsNum) (hv : v.truthy = false) :
    qtyOrDefault (some v) = .intVal 1 := by
  simp [qtyOrDefault, hv]

/-! ### Reachability of the demo states -/

theorem demoStep_reachable {s : Store} (h : Reachable defaultConfig s)
    (uid oid seed : String) : Reachable defaultConfig (demoStep s uid oid seed) := by
  have h1 : Reachable defaultConfig (addItem s uid "p1" (some (.intVal 1))).2 :=
    Relation.ReflTransGen.tail h (Step.add s uid "p1" (some (.intVal 1)))
  exact Relation.ReflTransGen.tail h1
    (Step.pay (addItem s uid "p1" (some (.intVal 1))).2 uid none oid 0 seed)

theorem demo1_reachable : Reachable defaultConfig demo1 :=
  demoStep_reachable Relation.ReflTransGen.refl "u1" "o1" "s1"

theorem demo2_reachable : Reachable defaultConfig demo2 :=
  demoStep_reachable demo1_reachable "u2" "o2" "s2"

theorem demo3_reachable : Reachable defaultConfig demo3 :=
  demoStep_reachable demo2_reachable "u3" "o3" "s3"

theorem demoUsed_reachable : Reachable defaultConfig demoUsed := by
  have h1 : Reachable defaultConfig (addItem demo3 "u4" "p1" (some (.intVal 1))).2 :=
    Relation.ReflTransGen.tail demo3_reachable (Step.add demo3 "u4" "p1" (some (.intVal 1)))
  exact Relation.ReflTransGen.tail h1
    (Step.pay (addItem demo3 "u4" "p1" (some (.intVal 1))).2 "u4" (some "C-s3") "o4" 0 "s4")

/-! ### Counting unused coupons -/

theorem filter_unused_le_one (l : List Coupon) (h : ∀ c ∈ l.dropLast, c.used = true) :
    (l.filter (fun c => !c.used)).length ≤ 1 := by
  rcases List.eq_nil_or_concat l with rfl | ⟨l', a, rfl⟩
  · simp
  · rw [List.concat_eq_append] at h ⊢
    rw [List.dropLast_concat] at h
    rw [List.filter_append]
    have hl' : l'.filter (fun c => !c.used) = [] := by
      rw [List.filter_eq_nil_iff]
      intro c hc
      simp [h c hc]
    rw [hl', List.nil_append]
    by_cases ha : a.used = true
    · simp [List.filter, ha]
    · simp [List.filter, Bool.eq_false_iff.mpr ha]

/-! ### Claim theorems -/

/-- C1: For every store state and every checkout call that fails
(invalid-coupon, coupon-already-used, cart-empty, or invalid-cart-total
kind), the failure leaves the store's observables unchanged: orderCount,
the global order list, every user's cart and order history, and every
coupon's fields are identical after the failed call to what they were
before it.  (The only mutation a failed checkout can make is the lazy
materialization of an empty user document, which changes none of the
enumerated observables.) -/
theorem checkout_failure_preserves_store (cfg : Config) (s : Store) (uid : String)
    (cc : Option String) (oid : String) (t : Nat) (seed : String) (e : ErrCode)
    (s' : Store) (h : checkout cfg s uid cc oid t seed = (.error e, s')) :
    s'.orderCount = s.orderCount ∧ s'.orders = s.orders ∧ s'.coupons = s.coupons ∧
      (∀ v, userCart s' v = userCart s v) ∧ (∀ v, userOrders s' v = userOrders s v) := by
  rcases checkout_error_states cfg s uid cc oid t seed e s' h with rfl | rfl
  · exact ⟨rfl, rfl, rfl, fun v => rfl, fun v => rfl⟩
  · exact ⟨materialize_orderCount s uid, materialize_orders s uid,
      materialize_coupons s uid, fun v => userCart_materialize s uid v,
      fun v => userOrders_materialize s uid v⟩

theorem checkout_failure_preserves_store_witness :
    (materializeUser initialStore "u1").orderCount = initialStore.orderCount ∧
      (materializeUser initialStore "u1").orders = initialStore.orders ∧
      (materializeUser initialStore "u1").coupons = initialStore.coupons ∧
      userCart (materializeUser initialStore "u1") "u1" = userCart initialStore "u1" := by
  have h := checkout_failure_preserves_store defaultConfig initialStore "u1" none
    "o1" 0 "x" .CART_EMPTY (materializeUser initialStore "u1") (by rfl)
  exact ⟨h.1, h.2.1, h.2.2.1, h.2.2.2.1 "u1"⟩

/-- C2: A coupon transitions from unused to used at most once and never
back: in every reachable state, for every coupon with `used = true`, a
checkout supplying that coupon's code fails with the
coupon-already-used kind and leaves the store (order list, orderCount)
completely unchanged. -/
theorem used_coupon_rejected (cfg : Config) (s : Store) (hreach : Reachable cfg s)
    (c : Coupon) (hc : c ∈ s.coupons) (hu : c.used = true)
    (uid oid : String) (t : Nat) (seed : String) :
    checkout cfg s uid (some c.code) oid t seed = (.error .COUPON_ALREADY_USED, s) := by
  obtain ⟨h1, h2, h3⟩ := inv_reachable cfg s hreach
  have hne : c.code ≠ "" := h2 c hc
  have hmatch : ∃ z, s.coupons.find? (fun x => x.code = c.code) = some z ∧
      z.used = true := by
    rcases List.eq_nil_or_concat s.coupons with hnil | ⟨l', a, hl⟩
    · rw [hnil] at hc; cases hc
    · rw [List.concat_eq_append] at hl
      rw [hl] at hc h1 ⊢
      rw [CouponsOk, List.dropLast_concat] at h1
      by_cases hcl : c ∈ l'
      · obtain ⟨z, hz, hzmem⟩ :=
          find_of_mem_left (fun x => x.code = c.code) l' [a] c hcl (by simp)
        exact ⟨z, hz, h1 z hzmem⟩
      · have hca : c = a := by
          rcases List.mem_append.mp hc with h' | h'
          · exact absurd h' hcl
          · simpa using h'
        subst hca
        cases hfl : l'.find? (fun x => x.code = c.code) with
        | some y =>
          refine ⟨y, ?_, h1 y (List.mem_of_find?_eq_some hfl)⟩
          rw [List.find?_append, hfl]
          rfl
        | none =>
          refine ⟨c, ?_, hu⟩
          rw [List.find?_append, hfl, Option.none_or]
          rw [List.find?_cons_of_pos _ (by simp)]
  obtain ⟨z, hz, hzu⟩ := hmatch
  unfold checkout getCouponByCode
  rw [Option.getD_some, if_neg hne, if_neg hne, hz]
  simp [hzu]

theorem used_coupon_rejected_witness :
    checkout defaultConfig demoUsed "u9" (some "C-s3") "o9" 7 "s9" =
      (.error .COUPON_ALREADY_USED, demoUsed) :=
  used_coupon_rejected defaultConfig demoUsed demoUsed_reachable
    { code := "C-s3", createdAt := 0, used := true, usedByOrderId := some "o4",
      usedAt := some 0, createdForOrderNumber := 3 }
    (by decide) (by decide) "u9" "o9" 7 "s9"

/-- C3: In every store state reachable from the initial state by any
sequence of addItem, viewCart, checkout, adminIssue and stats
operations, at most one coupon in the registry is unused. -/
theorem at_most_one_unused_coupon (cfg : Config) (s : Store)
    (hreach : Reachable cfg s) : unusedCount s ≤ 1 := by
  have h1 : CouponsOk s.coupons := (inv_reachable cfg s hreach).1
  exact filter_unused_le_one s.coupons h1

theorem at_most_one_unused_coupon_witness : unusedCount demo3 ≤ 1 :=
  at_most_one_unused_coupon defaultConfig demo3 demo3_reachable

/-- C4: After every successful checkout the issuance policy runs on the
state whose orderCount has just been incremented; it issues a new coupon
exactly when that orderCount is positive, divisible by N, and no unused
coupon exists in the registry — and otherwise changes nothing.  In
particular for N = 3: after exactly 3 successful checkouts exactly one
unused coupon exists, and a 4th checkout before that coupon is consumed
issues no second coupon. -/
theorem nth_order_coupon_issuance :
    (∀ (cfg : Config) (s : Store) (seed : String) (t : Nat),
        s.orderCount ≠ 0 → s.orderCount % cfg.N = 0 →
        s.coupons.any (fun c => !c.used) = false →
        maybeGenerateCouponForNthOrder cfg s seed t =
          { s with coupons :=
              s.coupons ++ [couponRecord (generateCouponCode seed) t s.orderCount] }) ∧
    (∀ (cfg : Config) (s : Store) (seed : String) (t : Nat),
        s.orderCount = 0 ∨ s.orderCount % cfg.N ≠ 0 ∨
          s.coupons.any (fun c => !c.used) = true →
        maybeGenerateCouponForNthOrder cfg s seed t = s) ∧
    (∀ (cfg : Config) (s : Store) (uid : String) (cc : Option String) (oid : String)
        (t : Nat) (seed : String) (o : Order) (rn rd : Nat) (s' : Store),
        checkout cfg s uid cc oid t seed = (.ok (o, rn, rd), s') →
        ∃ sMid : Store, s' = maybeGenerateCouponForNthOrder cfg sMid seed t ∧
          sMid.orderCount = s.orderCount + 1) ∧
    demo3.orderCount = 3 ∧ unusedCount demo3 = 1 ∧ demo3.coupons.length = 1 ∧
    demo4.orderCount = 4 ∧ demo4.coupons = demo3.coupons ∧ unusedCount demo4 = 1 := by
  refine ⟨?_, ?_, ?_, by decide, by decide, by decide, by decide, by decide, by decide⟩
  · intro cfg s seed t h0 hN hany
    unfold maybeGenerateCouponForNthOrder
    rw [if_neg h0, if_neg (by simp [hN]), if_neg (by rw [hany]; exact Bool.false_ne_true)]
    rfl
  · intro cfg s seed t h
    unfold maybeGenerateCouponForNthOrder
    by_cases h0 : s.orderCount = 0
    · rw [if_pos h0]
    · rw [if_neg h0]
      rcases h with h' | hN | hany
      · exact absurd h' h0
      · rw [if_pos hN]
      · by_cases hN' : s.orderCount % cfg.N ≠ 0
        · rw [if_pos hN']
        · rw [if_neg hN', if_pos hany]
  · intro cfg s uid cc oid t seed o rn rd s' h
    by_cases hcc : cc.getD "" = ""
    · obtain ⟨hpo, -, -⟩ := checkout_falsy_ok cfg s uid cc oid t seed o rn rd s' hcc h
      obtain ⟨-, hs'⟩ := placeOrder_ok_cases cfg s uid none oid t seed o s' hpo
      exact ⟨preIssueState cfg s uid none oid t, hs',
        preIssue_orderCount cfg s uid none oid t⟩
    · obtain ⟨c, -, -, hpo, -, -⟩ :=
        checkout_coupon_ok cfg s uid cc oid t seed o rn rd s' hcc h
      obtain ⟨-, hs'⟩ := placeOrder_ok_cases cfg s uid (some c) oid t seed o s' hpo
      exact ⟨preIssueState cfg s uid (some c) oid t, hs',
        preIssue_orderCount cfg s uid (some c) oid t⟩

theorem nth_order_coupon_issuance_witness :
    maybeGenerateCouponForNthOrder defaultConfig { initialStore with orderCount := 3 }
        "z" 5 =
      { { initialStore with orderCount := 3 } with
          coupons := [couponRecord (generateCouponCode "z") 5 3] } :=
  nth_order_coupon_issuance.1 defaultConfig { initialStore with orderCount := 3 }
    "z" 5 (by decide) (by decide) (by decide)

/-- C5: For every successful checkout consuming a valid unused coupon,
discountAmount equals the subtotal times the discount rate rounded
half-up and clamped so it never exceeds the subtotal, and
total = subtotal − discountAmount; without a coupon, discountAmount = 0
and total = subtotal; for discountRate = 0.10 (1/10) and subtotal =
1000, discountAmount = 100 and total = 900. -/
theorem checkout_discount_arithmetic :
    (∀ (cfg : Config) (s : Store) (uid : String) (cc : Option String) (oid : String)
        (t : Nat) (seed : String) (o : Order) (rn rd : Nat) (s' : Store),
        checkout cfg s uid cc oid t seed = (.ok (o, rn, rd), s') →
        (cc.getD "" ≠ "" →
          o.discountAmount = computeDiscount cfg o.subtotal ∧
            (∀ n, o.subtotal = some n →
              o.discountAmount =
                some (min ((2 * n * cfg.rateNum + cfg.rateDen) / (2 * cfg.rateDen)) n)) ∧
            o.total = jsSub o.subtotal o.discountAmount ∧
            (∀ n d, o.subtotal = some n → o.discountAmount = some d → d ≤ n)) ∧
        (cc.getD "" = "" → o.discountAmount = some 0 ∧ o.total = o.subtotal)) ∧
    computeDiscount defaultConfig (some 1000) = some 100 ∧
    jsSub (some 1000) (computeDiscount defaultConfig (some 1000)) = some 900 ∧
    (checkout defaultConfig (addItem demo3 "u5" "p1" (some (.intVal 2))).2 "u5"
        (some "C-s3") "o5" 0 "s5").1 =
      .ok ({ id := "o5", userId := "u5", items := [{ productId := "p1", qty := 2 }],
             subtotal := some 1000, discountAmount := some 100, total := some 900,
             couponCode := some "C-s3", createdAt := 0 }, 1, 10) := by
  refine ⟨?_, by decide, by decide, by rfl⟩
  intro cfg s uid cc oid t seed o rn rd s' h
  constructor
  · intro hcc
    obtain ⟨c, -, -, hpo, -, -⟩ :=
      checkout_coupon_ok cfg s uid cc oid t seed o rn rd s' hcc h
    obtain ⟨ho, -⟩ := placeOrder_ok_cases cfg s uid (some c) oid t seed o s' hpo
    subst ho
    refine ⟨builtOrder_discount_some cfg s uid c oid t, ?_,
      builtOrder_total cfg s uid (some c) oid t, ?_⟩
    · intro n hn
      rw [builtOrder_discount_some, hn, computeDiscount_eq_min]
    · intro n d hn hd
      rw [builtOrder_discount_some, hn, computeDiscount_eq_min] at hd
      cases hd
      exact Nat.min_le_right _ _
  · intro hcc
    obtain ⟨hpo, -, -⟩ := checkout_falsy_ok cfg s uid cc oid t seed o rn rd s' hcc h
    obtain ⟨ho, -⟩ := placeOrder_ok_cases cfg s uid none oid t seed o s' hpo
    subst ho
    exact ⟨builtOrder_discount_none cfg s uid oid t,
      by rw [builtOrder_total, builtOrder_discount_none, jsSub_zero]⟩

theorem checkout_discount_arithmetic_witness :
    ({ id := "o5", userId := "u5", items := [{ productId := "p1", qty := 2 }],
       subtotal := some 1000, discountAmount := some 100, total := some 900,
       couponCode := some "C-s3", createdAt := 0 } : Order).discountAmount =
        some (min ((2 * 1000 * defaultConfig.rateNum + defaultConfig.rateDen) /
          (2 * defaultConfig.rateDen)) 1000) ∧
      ({ id := "o5", userId := "u5", items := [{ productId := "p1", qty := 2 }],
         subtotal := some 1000, discountAmount := some 100, total := some 900,
         couponCode := some "C-s3", createdAt := 0 } : Order).total =
        jsSub (some 1000) (some 100) := by
  have h := (checkout_discount_arithmetic.1 defaultConfig
    (addItem demo3 "u5" "p1" (some (.intVal 2))).2 "u5" (some "C-s3") "o5" 0 "s5"
    { id := "o5", userId := "u5", items := [{ productId := "p1", qty := 2 }],
      subtotal := some 1000, discountAmount := some 100, total := some 900,
      couponCode := some "C-s3", createdAt := 0 } 1 10
    (checkout defaultConfig (addItem demo3 "u5" "p1" (some (.intVal 2))).2 "u5"
      (some "C-s3") "o5" 0 "s5").2 (by rfl)).1 (by decide)
  exact ⟨h.2.1 1000 rfl, h.2.2.1⟩

/-! ### addItem composition lemmas -/

theorem getProduct_found (products : List Product) (pid : String) (prod : Product)
    (hfind : products.find? (fun p => p.id = pid) = some prod) :
    getProduct products pid = .found prod := by
  unfold getProduct
  rw [hfind]

theorem addItem_ok_eq (s : Store) (uid pid : String) (qty : Option JsNum) (n : Nat)
    (hpid : pid ≠ "") (hg : getProduct s.products pid ≠ .missing)
    (hq : normalizeQty (qtyOrDefault qty) = .ok n) :
    addItem s uid pid qty =
      (.ok (addToCart (userOf s uid).cart pid n),
        { materializeUser s uid with
            users := setUser (materializeUser s uid).users uid
              { userOf s uid with cart := addToCart (userOf s uid).cart pid n } }) := by
  simp only [addItem]
  rw [if_neg hpid]
  cases hgc : getProduct s.products pid with
  | missing => exact absurd hgc hg
  | found p =>
    rw [hq]
    show (Except.ok (addToCart (userOf (materializeUser s uid) uid).cart pid n),
        ({ materializeUser s uid with
            users := setUser (materializeUser s uid).users uid
              { userOf (materializeUser s uid) uid with
                  cart := addToCart (userOf (materializeUser s uid) uid).cart pid n } } :
          Store)) = _
    rw [userOf_materialize]
  | inherited =>
    rw [hq]
    show (Except.ok (addToCart (userOf (materializeUser s uid) uid).cart pid n),
        ({ materializeUser s uid with
            users := setUser (materializeUser s uid).users uid
              { userOf (materializeUser s uid) uid with
                  cart := addToCart (userOf (materializeUser s uid) uid).cart pid n } } :
          Store)) = _
    rw [userOf_materialize]

theorem truthy_posInt (i : Int) (hi : 0 < i) : (JsNum.intVal i).truthy = true := by
  simp only [JsNum.truthy, bne_iff_ne, ne_eq]
  omega

theorem normalizeQty_default_posInt (i : Int) (hi : 0 < i) :
    normalizeQty (qtyOrDefault (some (.intVal i))) = .ok i.toNat := by
  rw [qtyOrDefault_truthy _ (truthy_posInt i hi)]
  exact normalizeQty_posInt i hi

theorem addItem_twice_ok (s : Store) (uid pid : String) (a b : Int)
    (ha : 0 < a) (hb : 0 < b) (hpid : pid ≠ "")
    (hg : getProduct s.products pid ≠ .missing) :
    (addItem (addItem s uid pid (some (.intVal a))).2 uid pid (some (.intVal b))).2 =
      (addItem s uid pid (some (.intVal (a + b)))).2 := by
  have hqa := normalizeQty_default_posInt a ha
  have hqb := normalizeQty_default_posInt b hb
  have hqab := normalizeQty_default_posInt (a + b) (by omega)
  have h1 : (addItem s uid pid (some (.intVal a))).2 =
      { materializeUser s uid with
          users := setUser (materializeUser s uid).users uid
            { userOf s uid with
                cart := addToCart (userOf s uid).cart pid a.toNat } } := by
    rw [addItem_ok_eq s uid pid (some (.intVal a)) a.toNat hpid hg hqa]
  rw [h1]
  have hlookM : lookupUser ({ materializeUser s uid with
      users := setUser (materializeUser s uid).users uid
        { userOf s uid with
            cart := addToCart (userOf s uid).cart pid a.toNat } } : Store).users uid =
      some { userOf s uid with
          cart := addToCart (userOf s uid).cart pid a.toNat } :=
    lookup_set_self _ _ _
  have huserM : userOf ({ materializeUser s uid with
      users := setUser (materializeUser s uid).users uid
        { userOf s uid with
            cart := addToCart (userOf s uid).cart pid a.toNat } } : Store) uid =
      { userOf s uid with cart := addToCart (userOf s uid).cart pid a.toNat } := by
    show (lookupUser ({ materializeUser s uid with
        users := setUser (materializeUser s uid).users uid
          { userOf s uid with
              cart := addToCart (userOf s uid).cart pid a.toNat } } :
          Store).users uid).getD { cart := [], orders := [] } = _
    rw [hlookM]
    rfl
  have hmatM := materialize_of_lookup_some _ uid _ hlookM
  have hgM : getProduct ({ materializeUser s uid with
      users := setUser (materializeUser s uid).users uid
        { userOf s uid with
            cart := addToCart (userOf s uid).cart pid a.toNat } } :
        Store).products pid ≠ .missing := by
    show getProduct (materializeUser s uid).products pid ≠ .missing
    rw [materialize_products]
    exact hg
  rw [addItem_ok_eq _ uid pid (some (.intVal b)) b.toNat hpid hgM hqb,
    addItem_ok_eq s uid pid (some (.intVal (a + b))) (a + b).toNat hpid hg hqab]
  show ({ materializeUser _ uid with
      users := setUser (materializeUser _ uid).users uid
        { userOf _ uid with cart := addToCart (userOf _ uid).cart pid b.toNat } } :
    Store) = _
  rw [hmatM, huserM]
  show ({ materializeUser s uid with
      users := setUser (setUser (materializeUser s uid).users uid
          { userOf s uid with
              cart := addToCart (userOf s uid).cart pid a.toNat }) uid
        { userOf s uid with
            cart := addToCart (addToCart (userOf s uid).cart pid a.toNat) pid
              b.toNat } } : Store) = _
  rw [set_set, addToCart_addToCart, Int.toNat_add ha.le hb.le]

theorem addItem_twice_eq (s : Store) (uid pid : String) (a b : Int)
    (ha : 0 < a) (hb : 0 < b) :
    (addItem (addItem s uid pid (some (.intVal a))).2 uid pid (some (.intVal b))).2 =
      (addItem s uid pid (some (.intVal (a + b)))).2 := by
  by_cases hpid : pid = ""
  · subst hpid
    have he : ∀ (s' : Store) (q : Option JsNum),
        addItem s' uid "" q = (.error .PRODUCT_ID_REQUIRED, s') :=
      fun s' q => rfl
    simp only [he]
  · cases hg : getProduct s.products pid with
    | missing =>
      have he : ∀ q : Option JsNum,
          addItem s uid pid q = (.error .PRODUCT_NOT_FOUND, s) := by
        intro q
        simp only [addItem]
        rw [if_neg hpid, hg]
      simp only [he]
    | found prod =>
      exact addItem_twice_ok s uid pid a b ha hb hpid
        (by rw [hg]; exact fun hc => ProductLookup.noConfusion hc)
    | inherited =>
      exact addItem_twice_ok s uid pid a b ha hb hpid
        (by rw [hg]; exact fun hc => ProductLookup.noConfusion hc)

theorem addItem_twice_filter (s : Store) (uid pid : String) (a b : Int)
    (prod : Product) (ha : 0 < a) (hb : 0 < b) (hpid : pid ≠ "")
    (hfind : s.products.find? (fun p => p.id = pid) = some prod)
    (hnotin : pid ∉ (userCart s uid).map (fun it => it.productId)) :
    (userCart (addItem (addItem s uid pid (some (.intVal a))).2 uid pid
        (some (.intVal b))).2 uid).filter (fun it => it.productId = pid) =
      [{ productId := pid, qty := (a + b).toNat }] := by
  have hg : getProduct s.products pid ≠ .missing := by
    rw [getProduct_found s.products pid prod hfind]
    exact fun hc => ProductLookup.noConfusion hc
  rw [addItem_twice_eq s uid pid a b ha hb]
  have hqab := normalizeQty_default_posInt (a + b) (by omega)
  have h1 : (addItem s uid pid (some (.intVal (a + b)))).2 =
      { materializeUser s uid with
          users := setUser (materializeUser s uid).users uid
            { userOf s uid with
                cart := addToCart (userOf s uid).cart pid (a + b).toNat } } := by
    rw [addItem_ok_eq s uid pid (some (.intVal (a + b))) (a + b).toNat hpid hg hqab]
  rw [h1, userCart_setUser (materializeUser s uid) uid _ uid, if_pos rfl]
  have hnotin' : ∀ it ∈ (userOf s uid).cart, it.productId ≠ pid := by
    intro it hit heq
    refine hnotin ?_
    rw [userCart_eq_userOf]
    exact List.mem_map.mpr ⟨it, hit, heq⟩
  have hany : (userOf s uid).cart.any (fun it => it.productId = pid) = false := by
    rw [List.any_eq_false]
    intro it hit
    simpa using hnotin' it hit
  show (addToCart (userOf s uid).cart pid (a + b).toNat).filter
      (fun it => it.productId = pid) = [{ productId := pid, qty := (a + b).toNat }]
  simp only [addToCart]
  rw [if_neg (by rw [hany]; exact Bool.false_ne_true), List.filter_append]
  have hf1 : (userOf s uid).cart.filter (fun it => it.productId = pid) = [] := by
    rw [List.filter_eq_nil_iff]
    intro it hit
    simpa using hnotin' it hit
  rw [hf1, List.nil_append]
  rw [List.filter_cons_of_pos (by simp)]
  rfl

/-- C6 counterexample: the claim fails on the code at two concrete
inputs.  (1) qty = 0: the route computes `normalizeQty(qty || 1)` and 0
is falsy, so a zero quantity is silently replaced by 1 and the call
succeeds, adding one unit to the cart.  (2) productId "toString" is
absent from the catalog, yet `state.products["toString"]` finds the
truthy inherited `Object.prototype.toString`, the `!product` check does
not fire, and the call succeeds instead of failing with a not-found
error. -/
theorem addItem_validation_counterexample :
    ((addItem initialStore "u1" "p1" (some (.intVal 0))).1 =
        .ok [{ productId := "p1", qty := 1 }] ∧
      userCart (addItem initialStore "u1" "p1" (some (.intVal 0))).2 "u1" =
        [{ productId := "p1", qty := 1 }]) ∧
    (initialStore.products.find? (fun p => p.id = "toString") = none ∧
      (addItem initialStore "u1" "toString" (some (.intVal 2))).1 =
        .ok [{ productId := "toString", qty := 2 }]) :=
  ⟨⟨rfl, rfl⟩, ⟨rfl, rfl⟩⟩

/-- C6 (amended): addItem fails with a validation error for every
truthy qty that is not a positive integer — negative or non-integer
finite numbers and the two infinities; a falsy qty (absent, 0, -0, NaN)
is defaulted to 1 by `qty || 1` before validation and is therefore
accepted, behaving exactly like qty = 1.  addItem fails with a
not-found error exactly for the productIds on which the object lookup
yields `undefined`: those that are neither in the catalog nor the name
of an inherited `Object.prototype` property; for prototype-named
productIds the lookup returns a truthy inherited value and the call
succeeds, pushing the line into the cart.  In each failure the store —
in particular every user's cart — is unchanged. -/
theorem addItem_qty_validation (s : Store) (uid pid : String) :
    (∀ v : JsNum, pid ≠ "" → getProduct s.products pid ≠ .missing →
        v.truthy = true → v.isPosInt = false →
        addItem s uid pid (some v) = (.error .INVALID_QTY, s)) ∧
    (∀ qty : Option JsNum, pid ≠ "" → getProduct s.products pid = .missing →
        addItem s uid pid qty = (.error .PRODUCT_NOT_FOUND, s)) ∧
    (∀ (qty : Option JsNum) (n : Nat), pid ≠ "" →
        getProduct s.products pid = .inherited →
        normalizeQty (qtyOrDefault qty) = .ok n →
        (addItem s uid pid qty).1 = .ok (addToCart (userOf s uid).cart pid n)) ∧
    (∀ v : JsNum, v.truthy = false →
        addItem s uid pid (some v) = addItem s uid pid (some (.intVal 1))) ∧
    addItem s uid pid none = addItem s uid pid (some (.intVal 1)) := by
  refine ⟨?_, ?_, ?_, ?_, rfl⟩
  · intro v hpid hg ht hp
    simp only [addItem]
    rw [if_neg hpid]
    cases hgc : getProduct s.products pid with
    | missing => exact absurd hgc hg
    | found p => rw [qtyOrDefault_truthy v ht, normalizeQty_not_posInt v hp]
    | inherited => rw [qtyOrDefault_truthy v ht, normalizeQty_not_posInt v hp]
  · intro qty hpid hmiss
    simp only [addItem]
    rw [if_neg hpid, hmiss]
  · intro qty n hpid hinh hq
    rw [addItem_ok_eq s uid pid qty n hpid
      (by rw [hinh]; exact fun hc => ProductLookup.noConfusion hc) hq]
  · intro v hv
    have hq : qtyOrDefault (some v) = qtyOrDefault (some (.intVal 1)) := by
      rw [qtyOrDefault_falsy v hv]
      rfl
    simp only [addItem]
    rw [hq]

theorem addItem_qty_validation_witness :
    addItem initialStore "u1" "p1" (some (.intVal (-2))) =
        (.error .INVALID_QTY, initialStore) ∧
      addItem initialStore "u1" "p9" (some (.intVal 2)) =
        (.error .PRODUCT_NOT_FOUND, initialStore) ∧
      (addItem initialStore "u1" "constructor" (some (.intVal 1))).1 =
        .ok (addToCart (userOf initialStore "u1").cart "constructor" 1) ∧
      addItem initialStore "u1" "p1" (some .nan) =
        addItem initialStore "u1" "p1" (some (.intVal 1)) := by
  have h := addItem_qty_validation initialStore "u1" "p1"
  have h9 := addItem_qty_validation initialStore "u1" "p9"
  have hc := addItem_qty_validation initialStore "u1" "constructor"
  exact ⟨h.1 (.intVal (-2)) (by decide) (by decide) (by decide) (by decide),
    h9.2.1 (some (.intVal 2)) (by decide) (by decide),
    hc.2.2.1 (some (.intVal 1)) 1 (by decide) (by decide) (by rfl),
    h.2.2.2.1 .nan (by decide)⟩

/-- C7: For every user, in every reachable state (hence after any
sequence of successful addItem calls) the cart contains at most one
line per productId; and adding qty a then qty b of the same product
yields the same store as a single addItem of a + b — in particular,
starting from a cart without that product, exactly one line with
qty = a + b. -/
theorem cart_merge_single_line :
    (∀ (cfg : Config) (s : Store), Reachable cfg s →
        ∀ uid, ((userCart s uid).map (fun it => it.productId)).Nodup) ∧
    (∀ (s : Store) (uid pid : String) (a b : Int), 0 < a → 0 < b →
        (addItem (addItem s uid pid (some (.intVal a))).2 uid pid
            (some (.intVal b))).2 =
          (addItem s uid pid (some (.intVal (a + b)))).2) ∧
    (∀ (s : Store) (uid pid : String) (a b : Int) (prod : Product), 0 < a → 0 < b →
        pid ≠ "" → s.products.find? (fun p => p.id = pid) = some prod →
        pid ∉ (userCart s uid).map (fun it => it.productId) →
        (userCart (addItem (addItem s uid pid (some (.intVal a))).2 uid pid
            (some (.intVal b))).2 uid).filter (fun it => it.productId = pid) =
          [{ productId := pid, qty := (a + b).toNat }]) :=
  ⟨fun cfg s h uid => (inv_reachable cfg s h).2.2 uid,
   fun s uid pid a b ha hb => addItem_twice_eq s uid pid a b ha hb,
   fun s uid pid a b prod ha hb hpid hfind hnotin =>
     addItem_twice_filter s uid pid a b prod ha hb hpid hfind hnotin⟩

theorem cart_merge_single_line_witness :
    (addItem (addItem initialStore "u1" "p1" (some (.intVal 1))).2 "u1" "p1"
        (some (.intVal 2))).2 =
      (addItem initialStore "u1" "p1" (some (.intVal (1 + 2)))).2 ∧
    (userCart (addItem (addItem initialStore "u1" "p1" (some (.intVal 1))).2 "u1" "p1"
        (some (.intVal 2))).2 "u1").filter (fun it => it.productId = "p1") =
      [{ productId := "p1", qty := Int.toNat (1 + 2) }] :=
  ⟨cart_merge_single_line.2.1 initialStore "u1" "p1" 1 2 (by decide) (by decide),
   cart_merge_single_line.2.2 initialStore "u1" "p1" 1 2
     { id := "p1", name := "T-shirt", price := 500 } (by decide) (by decide)
     (by decide) (by rfl) (by decide)⟩

/-- C8: adminIssue fails with "no orders yet" when orderCount = 0,
otherwise with "not nth order" when orderCount mod N ≠ 0, otherwise
with "unused coupon exists" when some unused coupon exists, checked in
that order; when all three preconditions hold it issues a coupon built
by the identical record-construction logic
(createCouponForCurrentOrderCount) as the automatic post-checkout path,
with createdForOrderNumber equal to the current orderCount, and leaves
the store exactly as the automatic path would. -/
theorem admin_coupon_preconditions (cfg : Config) (s : Store) (seed : String)
    (t : Nat) :
    (s.orderCount = 0 →
        adminGenerateCoupon cfg s seed t = (.error .NO_ORDERS, s)) ∧
    (s.orderCount ≠ 0 → s.orderCount % cfg.N ≠ 0 →
        adminGenerateCoupon cfg s seed t = (.error .NOT_NTH_ORDER, s)) ∧
    (s.orderCount ≠ 0 → s.orderCount % cfg.N = 0 →
        s.coupons.any (fun c => !c.used) = true →
        adminGenerateCoupon cfg s seed t = (.error .UNUSED_COUPON_EXISTS, s)) ∧
    (s.orderCount ≠ 0 → s.orderCount % cfg.N = 0 →
        s.coupons.any (fun c => !c.used) = false →
        adminGenerateCoupon cfg s seed t =
            (.ok (createCouponForCurrentOrderCount s seed t).1,
              (createCouponForCurrentOrderCount s seed t).2) ∧
          (createCouponForCurrentOrderCount s seed t).1 =
            couponRecord (generateCouponCode seed) t s.orderCount ∧
          maybeGenerateCouponForNthOrder cfg s seed t =
            (adminGenerateCoupon cfg s seed t).2) := by
  refine ⟨?_, ?_, ?_, ?_⟩
  · intro h0
    unfold adminGenerateCoupon
    rw [if_pos h0]
  · intro h0 hN
    unfold adminGenerateCoupon
    rw [if_neg h0, if_pos hN]
  · intro h0 hN hany
    unfold adminGenerateCoupon
    rw [if_neg h0, if_neg (by simp [hN]), if_pos hany]
  · intro h0 hN hany
    have hnotany : ¬s.coupons.any (fun c => !c.used) = true := by
      rw [hany]
      exact Bool.false_ne_true
    have hag : adminGenerateCoupon cfg s seed t =
        (.ok (createCouponForCurrentOrderCount s seed t).1,
          (createCouponForCurrentOrderCount s seed t).2) := by
      unfold adminGenerateCoupon
      rw [if_neg h0, if_neg (by simp [hN]), if_neg hnotany]
    have hmg : maybeGenerateCouponForNthOrder cfg s seed t =
        (createCouponForCurrentOrderCount s seed t).2 := by
      unfold maybeGenerateCouponForNthOrder
      rw [if_neg h0, if_neg (by simp [hN]), if_neg hnotany]
    refine ⟨hag, rfl, ?_⟩
    rw [hmg, hag]

theorem admin_coupon_preconditions_witness :
    adminGenerateCoupon defaultConfig { initialStore with orderCount := 3 } "z" 5 =
        (.ok (createCouponForCurrentOrderCount { initialStore with orderCount := 3 }
            "z" 5).1,
          (createCouponForCurrentOrderCount { initialStore with orderCount := 3 }
            "z" 5).2) ∧
      (createCouponForCurrentOrderCount { initialStore with orderCount := 3 }
          "z" 5).1 = couponRecord (generateCouponCode "z") 5 3 ∧
      maybeGenerateCouponForNthOrder defaultConfig
          { initialStore with orderCount := 3 } "z" 5 =
        (adminGenerateCoupon defaultConfig { initialStore with orderCount := 3 }
          "z" 5).2 :=
  (admin_coupon_preconditions defaultConfig { initialStore with orderCount := 3 }
    "z" 5).2.2.2 (by decide) (by decide) (by decide)

theorem foldl_jsAdd_none (l : List (Option Nat)) : l.foldl jsAdd none = none := by
  induction l with
  | nil => rfl
  | cons x xs ih =>
    rw [List.foldl_cons, show jsAdd none x = none from rfl]
    exact ih

theorem foldl_jsAdd (l : List (Option Nat)) :
    ∀ a : Nat, l.foldl jsAdd (some a) = (sumJs l).map (fun x => a + x) := by
  induction l with
  | nil => intro a; simp [sumJs]
  | cons x xs ih =>
    intro a
    cases x with
    | none =>
      rw [List.foldl_cons, show jsAdd (some a) none = none from rfl,
        foldl_jsAdd_none]
      simp [sumJs]
    | some k =>
      rw [List.foldl_cons, show jsAdd (some a) (some k) = some (a + k) from rfl, ih]
      by_cases hall : xs.all (fun x => x.isSome) = true
      · simp [sumJs, hall, Nat.add_assoc]
      · simp [sumJs, hall]

/-- C9: getAdminStats is a pure read-only fold (the route returns the
store unchanged) and its totals equal the sums recomputed independently
from the full order history: totalItemsPurchased is the sum of all
quantities over all order lines, totalPurchaseAmount the JS sum of
order totals (the natural sum when all totals are numbers, NaN as soon
as one is), totalDiscountAmount the sum of `discountAmount || 0` over
all orders, and the coupon list is returned in full (used coupons
included).  Since this holds for every store, it holds after any
sequence of operations. -/
theorem admin_stats_readonly_totals (s : Store) :
    getAdminStats s =
      { orderCount := s.orderCount,
        totalItemsPurchased :=
          (s.orders.map (fun o => (o.items.map (fun it => it.qty)).sum)).sum,
        totalPurchaseAmount := sumJs (s.orders.map (fun o => o.total)),
        totalDiscountAmount := (s.orders.map (fun o => o.discountAmount.getD 0)).sum,
        coupons := s.coupons } ∧
    adminStatsRoute s = (getAdminStats s, s) := by
  refine ⟨?_, rfl⟩
  have hmap : s.orders.map (fun o => o.items.foldl (fun c it => c + it.qty) 0) =
      s.orders.map (fun o => (o.items.map (fun it => it.qty)).sum) :=
    List.map_congr_left (fun o _ => by
      rw [foldl_add_sum (fun it => it.qty) o.items 0, Nat.zero_add])
  have hpur : s.orders.foldl (fun sum o => jsAdd sum o.total) (some 0) =
      sumJs (s.orders.map (fun o => o.total)) := by
    rw [← List.foldl_map (fun o => o.total) jsAdd s.orders (some 0),
      foldl_jsAdd (s.orders.map (fun o => o.total)) 0]
    cases sumJs (s.orders.map (fun o => o.total)) with
    | none => rfl
    | some n => show some (0 + n) = some n; rw [Nat.zero_add]
  simp only [getAdminStats]
  rw [foldl_add_sum (fun o => o.items.foldl (fun c it => c + it.qty) 0) s.orders 0,
    foldl_add_sum (fun o => o.discountAmount.getD 0) s.orders 0, hpur]
  simp only [Nat.zero_add]
  rw [hmap]

theorem placeOrder_fst_coupons (cfg : Config) (s : Store) (cs : List Coupon)
    (uid oid : String) (t : Nat) (seed : String) :
    (placeOrder cfg { s with coupons := cs } uid none oid t seed).1 =
      (placeOrder cfg s uid none oid t seed).1 := by
  by_cases h1 : (userOf s uid).cart.isEmpty = true
  · rw [placeOrder_cartEmpty cfg { s with coupons := cs } uid none oid t seed h1,
      placeOrder_cartEmpty cfg s uid none oid t seed h1]
  · have h1' : (userOf s uid).cart.isEmpty = false := Bool.eq_false_iff.mpr h1
    by_cases h2 : calculateCartTotal s.products (userOf s uid).cart = some 0
    · rw [placeOrder_zeroTotal cfg { s with coupons := cs } uid none oid t seed h1' h2,
        placeOrder_zeroTotal cfg s uid none oid t seed h1' h2]
    · rw [placeOrder_success cfg { s with coupons := cs } uid none oid t seed h1' h2,
        placeOrder_success cfg s uid none oid t seed h1' h2]
      rfl

/-- C10: A falsy couponCode (absent, null, or the empty string) makes
checkout behave exactly as a no-coupon checkout: an empty-string code is
indistinguishable from an absent one, the outcome is independent of the
coupon registry's contents, no invalid-coupon or coupon-already-used
error can be raised, and on success discountAmount = 0, no coupon code
is recorded on the order, and the returned effective discount rate is
0 (the pair (0, 1)). -/
theorem falsy_coupon_no_lookup (cfg : Config) (s : Store) (uid oid : String)
    (t : Nat) (seed : String) :
    checkout cfg s uid (some "") oid t seed = checkout cfg s uid none oid t seed ∧
    (∀ cs : List Coupon,
        (checkout cfg { s with coupons := cs } uid none oid t seed).1 =
          (checkout cfg s uid none oid t seed).1) ∧
    (∀ (e : ErrCode) (s' : Store),
        checkout cfg s uid none oid t seed = (.error e, s') →
        e ≠ .INVALID_COUPON ∧ e ≠ .COUPON_ALREADY_USED) ∧
    (∀ (o : Order) (rn rd : Nat) (s' : Store),
        checkout cfg s uid none oid t seed = (.ok (o, rn, rd), s') →
        o.discountAmount = some 0 ∧ o.couponCode = none ∧ rn = 0 ∧ rd = 1) := by
  refine ⟨rfl, ?_, ?_, ?_⟩
  · intro cs
    have hc : ∀ s₀ : Store, (checkout cfg s₀ uid none oid t seed).1 =
        match (placeOrder cfg s₀ uid none oid t seed).1 with
        | .error e => .error e
        | .ok o => .ok (o, 0, 1) := by
      intro s₀
      unfold checkout
      rw [if_pos (show (none : Option String).getD "" = "" from rfl)]
      cases hpo : placeOrder cfg s₀ uid none oid t seed with
      | mk r st =>
        cases r <;> rfl
    rw [hc { s with coupons := cs }, hc s, placeOrder_fst_coupons cfg s cs uid oid t seed]
  · intro e s' h
    have hpo := checkout_falsy_error cfg s uid none oid t seed e s' rfl h
    rcases (placeOrder_error_cases cfg s uid none oid t seed e s' hpo).2 with rfl | rfl
    · exact ⟨by decide, by decide⟩
    · exact ⟨by decide, by decide⟩
  · intro o rn rd s' h
    obtain ⟨hpo, hrn, hrd⟩ := checkout_falsy_ok cfg s uid none oid t seed o rn rd s' rfl h
    obtain ⟨ho, -⟩ := placeOrder_ok_cases cfg s uid none oid t seed o s' hpo
    subst ho
    exact ⟨builtOrder_discount_none cfg s uid oid t,
      builtOrder_couponCode_none cfg s uid oid t, hrn, hrd⟩

theorem falsy_coupon_no_lookup_witness :
    ({ id := "o1", userId := "u1", items := [{ productId := "p1", qty := 2 }],
       subtotal := some 1000, discountAmount := some 0, total := some 1000,
       couponCode := none, createdAt := 0 } : Order).discountAmount = some 0 ∧
      ({ id := "o1", userId := "u1", items := [{ productId := "p1", qty := 2 }],
         subtotal := some 1000, discountAmount := some 0, total := some 1000,
         couponCode := none, createdAt := 0 } : Order).couponCode = none ∧
      (0 : Nat) = 0 ∧ (1 : Nat) = 1 :=
  (falsy_coupon_no_lookup defaultConfig
      (addItem initialStore "u1" "p1" (some (.intVal 2))).2 "u1" "o1" 0 "z").2.2.2
    { id := "o1", userId := "u1", items := [{ productId := "p1", qty := 2 }],
      subtotal := some 1000, discountAmount := some 0, total := some 1000,
      couponCode := none, createdAt := 0 } 0 1
    (checkout defaultConfig (addItem initialStore "u1" "p1" (some (.intVal 2))).2
      "u1" none "o1" 0 "z").2 (by rfl)
